import Mathlib

-- Verification of the TrainingLab MCP supervisor subsystem:
-- a shallow embedding of src/mcp_validator.py (MCPConfigValidator) and
-- src/mcp_manager.py (MCPManager), with theorems about the embedded code.
--
-- Conventions of the embedding:
-- * Python dict-shaped configuration documents are modelled by the Json type.
-- * Python operations that can raise are modelled in Except String; the error
--   string names the Python exception that the corresponding line raises.
-- * Machine-environment effects (socket bind probes, PATH lookups, process
--   launches, RPC calls, wall-clock time) are oracles passed in explicitly.
-- * Python bool is an int subtype: isinstance(x, int) accepts True/False, so
--   the int view pyInt also accepts Json.bool.

set_option maxHeartbeats 1000000

namespace TrainingLab

-- ===========================================================================
-- Json values (the shape of a parsed configuration document)
-- ===========================================================================

inductive Json where
  | null : Json
  | bool : Bool → Json
  | num : Int → Json
  | str : String → Json
  | arr : List Json → Json
  | obj : List (String × Json) → Json

-- Python truthiness: bool(x) for the values representable as Json.
def truthy : Json → Bool
  | Json.null => false
  | Json.bool b => b
  | Json.num n => n != 0
  | Json.str s => s != ""
  | Json.arr xs => !xs.isEmpty
  | Json.obj fs => !fs.isEmpty

-- isinstance(x, int) together with the int value: Python bools are ints.
def pyInt : Json → Option Int
  | Json.num n => some n
  | Json.bool b => some (if b then 1 else 0)
  | _ => none

-- d.get(key, default): raises AttributeError when the receiver is not a dict.
def pyGet (j : Json) (key : String) (dflt : Json) : Except String Json :=
  match j with
  | Json.obj fs =>
    match fs.find? (fun p => p.1 == key) with
    | some p => Except.ok p.2
    | none => Except.ok dflt
  | _ => Except.error "AttributeError: get"

-- d[key]: raises KeyError when missing, TypeError when not subscriptable by str.
def pySubscript (j : Json) (key : String) : Except String Json :=
  match j with
  | Json.obj fs =>
    match fs.find? (fun p => p.1 == key) with
    | some p => Except.ok p.2
    | none => Except.error "KeyError"
  | _ => Except.error "TypeError: not subscriptable"

-- Substring test on character lists (Python: needle in haystack for str).
def infixOf (needle : List Char) : List Char → Bool
  | [] => needle.isEmpty
  | c :: t => needle.isPrefixOf (c :: t) || infixOf needle t

-- d.items(): raises AttributeError when the receiver is not a dict.
def pyItems : Json → Except String (List (String × Json))
  | Json.obj fs => Except.ok fs
  | _ => Except.error "AttributeError: items"

-- Python == on Json values; never raises.  Bools compare equal to their
-- int values (True == 1); lists compare element-wise.  Dict equality is
-- modelled structurally up to entry order.
mutual

def pyEq : Json → Json → Bool
  | Json.null, Json.null => true
  | Json.str s, Json.str t => s == t
  | Json.arr xs, Json.arr ys => pyEqList xs ys
  | Json.obj fs, Json.obj gs => pyEqFields fs gs
  | a, b =>
    match pyInt a, pyInt b with
    | some x, some y => x == y
    | _, _ => false

def pyEqList : List Json → List Json → Bool
  | [], [] => true
  | x :: xs, y :: ys => pyEq x y && pyEqList xs ys
  | _, _ => false

def pyEqFields : List (String × Json) → List (String × Json) → Bool
  | [], [] => true
  | p :: ps, q :: qs => p.1 == q.1 && pyEq p.2 q.2 && pyEqFields ps qs
  | _, _ => false

end

-- Python a >= b on Json values; TypeError on unordered type combinations.
mutual
def pyGE (a b : Json) : Except String Bool :=
  match pyInt a, pyInt b with
  | some x, some y => Except.ok (y ≤ x)
  | _, _ =>
    match a, b with
    | Json.str s, Json.str t => Except.ok (t ≤ s)
    | Json.arr xs, Json.arr ys => pyGEList xs ys
    | _, _ => Except.error "TypeError: unorderable"

-- list >= list: skip equal heads, compare the first differing pair.
def pyGEList : List Json → List Json → Except String Bool
  | [], [] => Except.ok true
  | [], _ :: _ => Except.ok false
  | _ :: _, [] => Except.ok true
  | x :: xs, y :: ys =>
    if pyEq x y then pyGEList xs ys else pyGE x y
end

-- key in j: dict key membership, str substring, list element membership
-- via Python ==; TypeError on values without the in operator.
def pyContains (j : Json) (key : String) : Except String Bool :=
  match j with
  | Json.obj fs => Except.ok (fs.any (fun p => p.1 == key))
  | Json.str s => Except.ok (infixOf key.toList s.toList)
  | Json.arr xs => Except.ok (xs.any (fun x => pyEq x (Json.str key)))
  | _ => Except.error "TypeError: argument is not iterable"

-- hashable(x): list and dict values cannot be members of a Python set.
def pyHashable : Json → Bool
  | Json.arr _ => false
  | Json.obj _ => false
  | _ => true

-- Render a Json value inside an f-string style message (approximate).
def jsonRender : Json → String
  | Json.null => "None"
  | Json.bool b => if b then "True" else "False"
  | Json.num n => toString n
  | Json.str s => s
  | Json.arr _ => "<list>"
  | Json.obj _ => "<dict>"

-- ===========================================================================
-- MCPConfigValidator (src/mcp_validator.py)
-- ===========================================================================

-- Per-server validation result (the dict built in validate_server).
structure SReport where
  valid : Bool
  errors : List String
  warnings : List String
  recommendations : List String
deriving Repr, DecidableEq

-- Whole-configuration validation result (the dict built in validate_config).
structure Report where
  valid : Bool
  errors : List String
  warnings : List String
  recommendations : List String
  server_validations : List (String × SReport)
deriving Repr, DecidableEq

-- In the source, every append to the errors list is adjacent to setting
-- valid = False (and conversely valid is never set False without an
-- error append); addError captures that paired mutation.
def SReport.addError (r : SReport) (e : String) : SReport :=
  { r with valid := false, errors := r.errors ++ [e] }

def SReport.addWarning (r : SReport) (w : String) : SReport :=
  { r with warnings := r.warnings ++ [w] }

def SReport.addRec (r : SReport) (c : String) : SReport :=
  { r with recommendations := r.recommendations ++ [c] }

def Report.addError (r : Report) (e : String) : Report :=
  { r with valid := false, errors := r.errors ++ [e] }

def Report.addWarning (r : Report) (w : String) : Report :=
  { r with warnings := r.warnings ++ [w] }

def Report.addRec (r : Report) (c : String) : Report :=
  { r with recommendations := r.recommendations ++ [c] }

-- Machine-environment oracles of the validator: the optional loaded JSON
-- schema (jsonschema.validate as a check returning an error message),
-- shutil.which, and the socket connect probe of _is_port_in_use.
structure Oracles where
  schemaCheck : Option (Json → Option String)
  which : String → Bool
  port_in_use : Int → Bool

-- _is_port_in_use(port): socket.connect_ex under a try that returns False
-- on any exception (non-int port, out-of-range port, socket errors).
def is_port_in_use (o : Oracles) (port : Json) : Bool :=
  match pyInt port with
  | some n => if 0 ≤ n && n ≤ 65535 then o.port_in_use n else false
  | none => false

-- _validate_required_fields (mcp_validator.py lines 123-136).
def validate_required_fields (server_config : Json) (r : SReport) :
    Except String SReport :=
  match pyContains server_config "command" with
  | Except.error e => Except.error e
  | Except.ok hasCommand =>
    let r1 := if hasCommand then r else
      r.addError "Missing required field: command"
    match pyContains server_config "name" with
    | Except.error e => Except.error e
    | Except.ok hasName =>
      let r2 := if hasName then r1 else
        r1.addRec "Consider adding name for better organization"
      match pyContains server_config "description" with
      | Except.error e => Except.error e
      | Except.ok hasDescription =>
        let r3 := if hasDescription then r2 else
          r2.addRec "Consider adding description for better organization"
        match pyContains server_config "category" with
        | Except.error e => Except.error e
        | Except.ok hasCategory =>
          Except.ok (if hasCategory then r3 else
            r3.addRec "Consider adding category for better organization")

-- _validate_command (lines 138-157).  shutil.which on a truthy non-string
-- command raises TypeError inside os.path operations.
def validate_command (o : Oracles) (server_config : Json) (r : SReport) :
    Except String SReport :=
  match pyGet server_config "command" Json.null with
  | Except.error e => Except.error e
  | Except.ok command =>
    if !truthy command then Except.ok r
    else
      match command with
      | Json.str c =>
        let r1 := if o.which c then r else
          r.addWarning ("Command " ++ c ++ " not found in PATH")
        match pyGet server_config "args" (Json.arr []) with
        | Except.error e => Except.error e
        | Except.ok args =>
          let r2 := match args with
            | Json.arr _ => r1
            | _ => r1.addError "Server args must be a list"
          let dangerous :=
            ["rm", "del", "format", "sudo", "su"].any
              (fun d => infixOf d.toList c.toLower.toList)
          Except.ok (if dangerous then
            r2.addWarning ("Potentially dangerous command detected: " ++ c)
          else r2)
      | _ => Except.error "TypeError: which expects a string"

-- _validate_connection (lines 159-179).
-- The port block of _validate_connection (lines 163-169).
def connection_port_check (connection : Json) (r : SReport) :
    Except String SReport :=
  match pyContains connection "port" with
  | Except.error e => Except.error e
  | Except.ok hasPort =>
    if hasPort then
      match pySubscript connection "port" with
      | Except.error e => Except.error e
      | Except.ok port =>
        Except.ok (match pyInt port with
          | some n =>
            if n < 1 || n > 65535 then
              r.addError ("Invalid port number: " ++ jsonRender port)
            else if n < 1024 then
              r.addWarning ("Port " ++ jsonRender port ++
                " requires elevated privileges")
            else r
          | none =>
            r.addError ("Invalid port number: " ++ jsonRender port))
    else Except.ok r

-- The host block of _validate_connection (lines 171-175).
def connection_host_check (connection : Json) (r : SReport) :
    Except String SReport :=
  match pyContains connection "host" with
  | Except.error e => Except.error e
  | Except.ok hasHost =>
    if hasHost then
      match pySubscript connection "host" with
      | Except.error e => Except.error e
      | Except.ok host =>
        Except.ok (match host with
          | Json.str h =>
            if h.trim == "" then
              r.addError "Host must be a non-empty string"
            else r
          | _ => r.addError "Host must be a non-empty string")
    else Except.ok r

-- The startup_delay block of _validate_connection (lines 177-179).
def connection_delay_check (connection : Json) (r : SReport) :
    Except String SReport :=
  match pyGet connection "startup_delay" (Json.num 3) with
  | Except.error e => Except.error e
  | Except.ok sd =>
    Except.ok (match pyInt sd with
      | some n =>
        if n < 0 then
          r.addWarning "startup_delay should be a non-negative integer"
        else r
      | none =>
        r.addWarning "startup_delay should be a non-negative integer")

def validate_connection (server_config : Json) (r : SReport) :
    Except String SReport :=
  match pyGet server_config "connection" (Json.obj []) with
  | Except.error e => Except.error e
  | Except.ok connection =>
    match connection_port_check connection r with
    | Except.error e => Except.error e
    | Except.ok r1 =>
      match connection_host_check connection r1 with
      | Except.error e => Except.error e
      | Except.ok r2 => connection_delay_check connection r2

-- _validate_health_check (lines 181-205).  The unguarded comparison
-- timeout >= interval raises TypeError on unorderable operand types.
def validate_health_check (server_config : Json) (r : SReport) :
    Except String SReport :=
  match pyGet server_config "health_check" (Json.obj []) with
  | Except.error e => Except.error e
  | Except.ok health_check =>
    match health_check with
    | Json.obj _ =>
      match pyGet health_check "interval" (Json.num 30) with
      | Except.error e => Except.error e
      | Except.ok interval =>
        match pyGet health_check "timeout" (Json.num 10) with
        | Except.error e => Except.error e
        | Except.ok timeout =>
          match pyGet health_check "retry_count" (Json.num 3) with
          | Except.error e => Except.error e
          | Except.ok retry_count =>
            let r1 := match pyInt interval with
              | some n =>
                if n < 5 then
                  r.addWarning
                    "Health check interval should be at least 5 seconds"
                else r
              | none =>
                r.addWarning
                  "Health check interval should be at least 5 seconds"
            let r2 := match pyInt timeout with
              | some n =>
                if n < 1 then
                  r1.addWarning
                    "Health check timeout should be at least 1 second"
                else r1
              | none =>
                r1.addWarning
                  "Health check timeout should be at least 1 second"
            match pyGE timeout interval with
            | Except.error e => Except.error e
            | Except.ok ge =>
              let r3 := if ge then
                r2.addWarning
                  "Health check timeout should be less than interval"
              else r2
              Except.ok (match pyInt retry_count with
                | some n =>
                  if n < 1 then
                    r3.addWarning
                      "Health check retry_count should be at least 1"
                  else r3
                | none =>
                  r3.addWarning
                    "Health check retry_count should be at least 1")
    | _ => Except.ok (r.addError "health_check must be an object")

-- Environment-variable name shape: name.replace on underscore and hyphen,
-- then str.isalnum (nonempty and alphanumeric).
def envNameOk (name : String) : Bool :=
  let cleaned := name.toList.filter (fun c => c != '_' && c != '-')
  !cleaned.isEmpty && cleaned.all Char.isAlphanum

-- _validate_environment (lines 207-222).  Keys of a parsed JSON object are
-- always strings, so the isinstance(var_name, str) disjunct never fires.
def validate_environment (server_config : Json) (r : SReport) :
    Except String SReport :=
  match pyGet server_config "environment" (Json.obj []) with
  | Except.error e => Except.error e
  | Except.ok environment =>
    match environment with
    | Json.obj fs =>
      Except.ok (fs.foldl (fun (acc : SReport) p =>
        let acc1 := if envNameOk p.1 then acc else
          acc.addWarning ("Environment variable name " ++ p.1 ++
            " may be invalid")
        match p.2 with
        | Json.str _ => acc1
        | _ => acc1.addWarning ("Environment variable " ++ p.1 ++
            " should be a string")) r)
    | _ => Except.ok (r.addError "environment must be an object")

-- _validate_categories_capabilities (lines 224-240).
def validate_categories_capabilities (server_config : Json) (r : SReport) :
    Except String SReport :=
  let valid_categories := ["workout", "testing", "automation", "data", "ai",
    "custom"]
  match pyGet server_config "category" (Json.str "custom") with
  | Except.error e => Except.error e
  | Except.ok category =>
    let inCats := match category with
      | Json.str c => valid_categories.contains c
      | _ => false
    let r1 := if inCats then r else
      r.addWarning ("Unknown category " ++ jsonRender category ++
        ". Valid categories: " ++ String.intercalate ", " valid_categories)
    match pyGet server_config "capabilities" (Json.arr []) with
    | Except.error e => Except.error e
    | Except.ok capabilities =>
      let capsBad := truthy capabilities &&
        (match capabilities with | Json.arr _ => false | _ => true)
      let r2 := if capsBad then r1.addError "capabilities must be a list"
        else r1
      match pyGet server_config "tags" (Json.arr []) with
      | Except.error e => Except.error e
      | Except.ok tags =>
        let tagsBad := truthy tags &&
          (match tags with | Json.arr _ => false | _ => true)
        Except.ok (if tagsBad then r2.addError "tags must be a list" else r2)

-- validate_server (lines 85-121): chain the six per-server checks over a
-- fresh all-clear report.
-- The fresh all-clear per-server report of validate_server (lines 96-101).
def fresh_sreport : SReport :=
  { valid := true, errors := [], warnings := [], recommendations := [] }

def validate_server (o : Oracles) (_server_id : String)
    (server_config : Json) : Except String SReport :=
  match validate_required_fields server_config fresh_sreport with
  | Except.error e => Except.error e
  | Except.ok r1 =>
    match validate_command o server_config r1 with
    | Except.error e => Except.error e
    | Except.ok r2 =>
      match validate_connection server_config r2 with
      | Except.error e => Except.error e
      | Except.ok r3 =>
        match validate_health_check server_config r3 with
        | Except.error e => Except.error e
        | Except.ok r4 =>
          match validate_environment server_config r4 with
          | Except.error e => Except.error e
          | Except.ok r5 =>
            validate_categories_capabilities server_config r5

-- _validate_global_settings (lines 242-267).
def validate_global_settings (config : Json) (r : Report) :
    Except String Report :=
  match pyGet config "global_settings" (Json.obj []) with
  | Except.error e => Except.error e
  | Except.ok global_settings =>
    match pyGet global_settings "max_concurrent_servers" (Json.num 10) with
    | Except.error e => Except.error e
    | Except.ok max_concurrent =>
      let r1 := match pyInt max_concurrent with
        | some n =>
          if n < 1 then
            r.addWarning "max_concurrent_servers should be a positive integer"
          else r
        | none =>
          r.addWarning "max_concurrent_servers should be a positive integer"
      match pyGet global_settings "startup_timeout" (Json.num 30) with
      | Except.error e => Except.error e
      | Except.ok startup_timeout =>
        let r2 := match pyInt startup_timeout with
          | some n =>
            if n < 5 then
              r1.addWarning "startup_timeout should be at least 5 seconds"
            else r1
          | none =>
            r1.addWarning "startup_timeout should be at least 5 seconds"
        match pyGet global_settings "port_range" (Json.obj []) with
        | Except.error e => Except.error e
        | Except.ok port_range =>
          if truthy port_range then
            match pyGet port_range "start" (Json.num 8000) with
            | Except.error e => Except.error e
            | Except.ok start_port =>
              match pyGet port_range "end" (Json.num 9000) with
              | Except.error e => Except.error e
              | Except.ok end_port =>
                Except.ok (match pyInt start_port, pyInt end_port with
                  | some s, some t =>
                    if s ≥ t then
                      r2.addError "Port range start must be less than end"
                    else if t - s < 10 then
                      r2.addWarning
                        "Small port range may cause conflicts with multiple servers"
                    else r2
                  | _, _ =>
                    r2.addError "Port range start and end must be integers")
          else Except.ok r2

-- The loop body of _validate_port_conflicts (lines 269-286); used_ports is
-- the accumulated Python set (insertion order is irrelevant to membership).
def port_conflicts_loop (o : Oracles) :
    List (String × Json) → List Json → Report → Except String Report
  | [], _, r => Except.ok r
  | (_, server_config) :: rest, used, r =>
    match pyGet server_config "connection" (Json.obj []) with
    | Except.error e => Except.error e
    | Except.ok connection =>
      match pyContains connection "port" with
      | Except.error e => Except.error e
      | Except.ok hasPort =>
        if hasPort then
          match pySubscript connection "port" with
          | Except.error e => Except.error e
          | Except.ok port =>
            if !pyHashable port then
              Except.error "TypeError: unhashable type"
            else if used.any (fun u => pyEq port u) then
              port_conflicts_loop o rest used
                (r.addError
                  ("Port conflict: Multiple servers trying to use port " ++
                    jsonRender port))
            else
              let r1 := if is_port_in_use o port then
                r.addWarning ("Port " ++ jsonRender port ++
                  " appears to be already in use")
              else r
              port_conflicts_loop o rest (used ++ [port]) r1
        else port_conflicts_loop o rest used r

-- _validate_port_conflicts (lines 269-286).
def validate_port_conflicts (o : Oracles) (config : Json) (r : Report) :
    Except String Report :=
  match pyGet config "mcp_servers" (Json.obj []) with
  | Except.error e => Except.error e
  | Except.ok mcp_servers =>
    match pyItems mcp_servers with
    | Except.error e => Except.error e
    | Except.ok items => port_conflicts_loop o items [] r

-- Collection loop of _validate_priorities (lines 291-298).
def priorities_loop :
    List (String × Json) → List (String × Int) → Report →
    Except String (List (String × Int) × Report)
  | [], acc, r => Except.ok (acc, r)
  | (sid, server_config) :: rest, acc, r =>
    match pyGet server_config "priority" (Json.num 5) with
    | Except.error e => Except.error e
    | Except.ok priority =>
      match pyInt priority with
      | some n =>
        if n < 1 || n > 10 then
          priorities_loop rest acc
            (r.addWarning ("Server " ++ sid ++ " has invalid priority " ++
              jsonRender priority ++ " (should be 1-10)"))
        else priorities_loop rest (acc ++ [(sid, n)]) r
      | none =>
        priorities_loop rest acc
          (r.addWarning ("Server " ++ sid ++ " has invalid priority " ++
            jsonRender priority ++ " (should be 1-10)"))

-- priority_counts grouping (lines 300-307): a dict priority -> server ids,
-- in first-seen order.
def addToGroup (groups : List (Int × List String)) (p : Int) (sid : String) :
    List (Int × List String) :=
  if groups.any (fun g => g.1 == p) then
    groups.map (fun g => if g.1 == p then (g.1, g.2 ++ [sid]) else g)
  else groups ++ [(p, [sid])]

def group_priorities_aux :
    List (String × Int) → List (Int × List String) → List (Int × List String)
  | [], groups => groups
  | (sid, p) :: rest, groups =>
    group_priorities_aux rest (addToGroup groups p sid)

def group_priorities (l : List (String × Int)) : List (Int × List String) :=
  group_priorities_aux l []

-- _validate_priorities (lines 288-313).
def validate_priorities (config : Json) (r : Report) : Except String Report :=
  match pyGet config "mcp_servers" (Json.obj []) with
  | Except.error e => Except.error e
  | Except.ok mcp_servers =>
    match pyItems mcp_servers with
    | Except.error e => Except.error e
    | Except.ok items =>
      match priorities_loop items [] r with
      | Except.error e => Except.error e
      | Except.ok (priorities, r1) =>
        Except.ok ((group_priorities priorities).foldl
          (fun (acc : Report) g =>
            if g.2.length > 1 then
              acc.addRec ("Multiple servers have priority " ++ toString g.1 ++
                ": " ++ String.intercalate ", " g.2 ++
                ". Consider using different priorities for deterministic startup order")
            else acc) r1)

-- One iteration of the per-server loop of validate_config (lines 67-76):
-- record the server validation, merge fatal errors (with valid = False),
-- and merge prefixed warnings and recommendations.
def servers_loop_step (sid : String) (sv : SReport) (r : Report) : Report :=
  let r1 := { r with
    server_validations := r.server_validations ++ [(sid, sv)] }
  let r2 := if sv.valid then r1 else
    { r1 with
      valid := false,
      errors := r1.errors ++
        sv.errors.map (fun e => "[" ++ sid ++ "] " ++ e) }
  { r2 with
    warnings := r2.warnings ++
      sv.warnings.map (fun w => "[" ++ sid ++ "] " ++ w),
    recommendations := r2.recommendations ++
      sv.recommendations.map (fun c => "[" ++ sid ++ "] " ++ c) }

-- Per-server loop of validate_config (lines 65-76).
def servers_loop (o : Oracles) :
    List (String × Json) → Report → Except String Report
  | [], r => Except.ok r
  | (sid, server_config) :: rest, r =>
    match validate_server o sid server_config with
    | Except.error e => Except.error e
    | Except.ok sv => servers_loop o rest (servers_loop_step sid sv r)

-- The fresh report plus the schema-validation step of validate_config
-- (lines 47-63).
def initial_report (o : Oracles) (config : Json) : Report :=
  let r0 : Report :=
    { valid := true, errors := [], warnings := [],
      recommendations := [], server_validations := [] }
  match o.schemaCheck with
  | none => r0
  | some check =>
    match check config with
    | none => r0
    | some msg => r0.addError ("Schema validation failed: " ++ msg)

-- validate_config (lines 37-83).
def validate_config (o : Oracles) (config : Json) : Except String Report :=
  match pyGet config "mcp_servers" (Json.obj []) with
  | Except.error e => Except.error e
  | Except.ok mcp_servers =>
    match pyItems mcp_servers with
    | Except.error e => Except.error e
    | Except.ok items =>
      match servers_loop o items (initial_report o config) with
      | Except.error e => Except.error e
      | Except.ok r2 =>
        match validate_global_settings config r2 with
        | Except.error e => Except.error e
        | Except.ok r3 =>
          match validate_port_conflicts o config r3 with
          | Except.error e => Except.error e
          | Except.ok r4 => validate_priorities config r4

-- ===========================================================================
-- C1: valid is true exactly when the fatal error list is empty
-- ===========================================================================

-- The linking invariant of a report: valid mirrors emptiness of errors.
def SReport.inv (r : SReport) : Prop := r.valid = r.errors.isEmpty

def Report.inv (r : Report) : Prop := r.valid = r.errors.isEmpty

theorem SReport.sinv_addError (r : SReport) (e : String) : (r.addError e).inv := by
  simp [SReport.inv, SReport.addError]

theorem SReport.sinv_addWarning {r : SReport} (hr : r.inv) (w : String) :
    (r.addWarning w).inv := hr

theorem SReport.sinv_addRec {r : SReport} (hr : r.inv) (c : String) :
    (r.addRec c).inv := hr

theorem Report.inv_addError (r : Report) (e : String) : (r.addError e).inv := by
  simp [Report.inv, Report.addError]

theorem Report.inv_addWarning {r : Report} (hr : r.inv) (w : String) :
    (r.addWarning w).inv := hr

theorem Report.inv_addRec {r : Report} (hr : r.inv) (c : String) :
    (r.addRec c).inv := hr

theorem validate_required_fields_inv {cfg : Json} {r r2 : SReport}
    (h : validate_required_fields cfg r = Except.ok r2) (hr : r.inv) :
    r2.inv := by
  unfold validate_required_fields at h
  iterate 12 (all_goals (try split at h))
  all_goals (try (injection h with h))
  all_goals (try (subst h))
  iterate 8 (all_goals (try split))
  all_goals
    simp_all [SReport.inv, SReport.addError, SReport.addWarning,
      SReport.addRec]

theorem validate_command_inv {o : Oracles} {cfg : Json} {r r2 : SReport}
    (h : validate_command o cfg r = Except.ok r2) (hr : r.inv) :
    r2.inv := by
  unfold validate_command at h
  iterate 12 (all_goals (try split at h))
  all_goals (try (injection h with h))
  all_goals (try (subst h))
  iterate 8 (all_goals (try split))
  all_goals
    simp_all [SReport.inv, SReport.addError, SReport.addWarning,
      SReport.addRec]

theorem connection_port_check_inv {c : Json} {r r2 : SReport}
    (h : connection_port_check c r = Except.ok r2) (hr : r.inv) :
    r2.inv := by
  unfold connection_port_check at h
  iterate 12 (all_goals (try split at h))
  all_goals (try (injection h with h))
  all_goals (try (subst h))
  iterate 8 (all_goals (try split))
  all_goals
    simp_all [SReport.inv, SReport.addError, SReport.addWarning,
      SReport.addRec]

theorem connection_host_check_inv {c : Json} {r r2 : SReport}
    (h : connection_host_check c r = Except.ok r2) (hr : r.inv) :
    r2.inv := by
  unfold connection_host_check at h
  iterate 12 (all_goals (try split at h))
  all_goals (try (injection h with h))
  all_goals (try (subst h))
  iterate 8 (all_goals (try split))
  all_goals
    simp_all [SReport.inv, SReport.addError, SReport.addWarning,
      SReport.addRec]

theorem connection_delay_check_inv {c : Json} {r r2 : SReport}
    (h : connection_delay_check c r = Except.ok r2) (hr : r.inv) :
    r2.inv := by
  unfold connection_delay_check at h
  iterate 8 (all_goals (try split at h))
  all_goals (try (injection h with h))
  all_goals (try (subst h))
  iterate 8 (all_goals (try split))
  all_goals
    simp_all [SReport.inv, SReport.addError, SReport.addWarning,
      SReport.addRec]

theorem validate_connection_inv {cfg : Json} {r r2 : SReport}
    (h : validate_connection cfg r = Except.ok r2) (hr : r.inv) :
    r2.inv := by
  unfold validate_connection at h
  iterate 8 (all_goals (try split at h))
  all_goals (try (exact Except.noConfusion h))
  exact connection_delay_check_inv h
    (connection_host_check_inv (by assumption)
      (connection_port_check_inv (by assumption) hr))

theorem validate_health_check_inv {cfg : Json} {r r2 : SReport}
    (h : validate_health_check cfg r = Except.ok r2) (hr : r.inv) :
    r2.inv := by
  unfold validate_health_check at h
  iterate 16 (all_goals (try split at h))
  all_goals (try (injection h with h))
  all_goals (try (subst h))
  iterate 8 (all_goals (try split))
  all_goals
    simp_all [SReport.inv, SReport.addError, SReport.addWarning,
      SReport.addRec]

theorem sreport_foldl_inv {β : Type} (f : SReport → β → SReport)
    (hf : ∀ r b, r.inv → (f r b).inv) :
    ∀ (l : List β) (r : SReport), r.inv → (l.foldl f r).inv := by
  intro l
  induction l with
  | nil => intro r hr; exact hr
  | cons b t ih => intro r hr; exact ih (f r b) (hf r b hr)

theorem validate_environment_inv {cfg : Json} {r r2 : SReport}
    (h : validate_environment cfg r = Except.ok r2) (hr : r.inv) :
    r2.inv := by
  unfold validate_environment at h
  iterate 6 (all_goals (try split at h))
  all_goals (try (exact Except.noConfusion h))
  all_goals (try (injection h with h))
  all_goals (try (subst h))
  all_goals (try (exact SReport.sinv_addError _ _))
  all_goals
    refine sreport_foldl_inv _ ?_ _ _ hr
  all_goals intro rr b hrb
  all_goals dsimp only
  all_goals split
  all_goals (try split)
  all_goals
    first
    | exact hrb
    | exact SReport.sinv_addWarning hrb _
    | exact SReport.sinv_addWarning (SReport.sinv_addWarning hrb _) _

theorem validate_categories_capabilities_inv {cfg : Json} {r r2 : SReport}
    (h : validate_categories_capabilities cfg r = Except.ok r2) (hr : r.inv) :
    r2.inv := by
  unfold validate_categories_capabilities at h
  iterate 12 (all_goals (try split at h))
  all_goals (try (injection h with h))
  all_goals (try (subst h))
  iterate 8 (all_goals (try split))
  all_goals
    simp_all [SReport.inv, SReport.addError, SReport.addWarning,
      SReport.addRec]

theorem validate_server_inv {o : Oracles} {sid : String} {cfg : Json}
    {sv : SReport} (h : validate_server o sid cfg = Except.ok sv) :
    sv.inv := by
  unfold validate_server at h
  iterate 8 (all_goals (try split at h))
  all_goals (try (exact Except.noConfusion h))
  exact validate_categories_capabilities_inv h
    (validate_environment_inv (by assumption)
      (validate_health_check_inv (by assumption)
        (validate_connection_inv (by assumption)
          (validate_command_inv (by assumption)
            (validate_required_fields_inv (by assumption)
              (rfl : fresh_sreport.inv))))))

theorem validate_global_settings_inv {cfg : Json} {r r2 : Report}
    (h : validate_global_settings cfg r = Except.ok r2) (hr : r.inv) :
    r2.inv := by
  unfold validate_global_settings at h
  iterate 16 (all_goals (try split at h))
  all_goals (try (injection h with h))
  all_goals (try (subst h))
  iterate 8 (all_goals (try split))
  all_goals
    simp_all [Report.inv, Report.addError, Report.addWarning, Report.addRec]

theorem port_conflicts_loop_inv {o : Oracles} :
    ∀ {items : List (String × Json)} {used : List Json} {r r2 : Report},
    port_conflicts_loop o items used r = Except.ok r2 → r.inv → r2.inv := by
  intro items
  induction items with
  | nil =>
    intro used r r2 h hr
    unfold port_conflicts_loop at h
    cases h
    exact hr
  | cons p rest ih =>
    intro used r r2 h hr
    unfold port_conflicts_loop at h
    iterate 10 (all_goals (try split at h))
    all_goals (try (exact Except.noConfusion h))
    all_goals refine ih h ?_
    all_goals
      first
      | exact hr
      | exact Report.inv_addError _ _
      | exact Report.inv_addWarning hr _

theorem validate_port_conflicts_inv {o : Oracles} {cfg : Json} {r r2 : Report}
    (h : validate_port_conflicts o cfg r = Except.ok r2) (hr : r.inv) :
    r2.inv := by
  unfold validate_port_conflicts at h
  iterate 4 (all_goals (try split at h))
  all_goals (try (exact Except.noConfusion h))
  exact port_conflicts_loop_inv h hr

theorem priorities_loop_inv :
    ∀ {items : List (String × Json)} {acc : List (String × Int)}
    {r : Report} {out : List (String × Int) × Report},
    priorities_loop items acc r = Except.ok out → r.inv → out.2.inv := by
  intro items
  induction items with
  | nil =>
    intro acc r out h hr
    unfold priorities_loop at h
    cases h
    exact hr
  | cons p rest ih =>
    intro acc r out h hr
    unfold priorities_loop at h
    iterate 6 (all_goals (try split at h))
    all_goals (try (exact Except.noConfusion h))
    all_goals refine ih h ?_
    all_goals
      first
      | exact hr
      | exact Report.inv_addWarning hr _

theorem report_foldl_inv {β : Type} (f : Report → β → Report)
    (hf : ∀ r b, r.inv → (f r b).inv) :
    ∀ (l : List β) (r : Report), r.inv → (l.foldl f r).inv := by
  intro l
  induction l with
  | nil => intro r hr; exact hr
  | cons b t ih => intro r hr; exact ih (f r b) (hf r b hr)

theorem validate_priorities_inv {cfg : Json} {r r2 : Report}
    (h : validate_priorities cfg r = Except.ok r2) (hr : r.inv) :
    r2.inv := by
  unfold validate_priorities at h
  iterate 6 (all_goals (try split at h))
  all_goals (try (exact Except.noConfusion h))
  all_goals (try (injection h with h))
  all_goals (try (subst h))
  all_goals
    refine report_foldl_inv _ ?_ _ _ (priorities_loop_inv (by assumption) hr)
  all_goals intro rr b hrb
  all_goals dsimp only
  all_goals split
  all_goals
    first
    | exact hrb
    | exact Report.inv_addRec hrb _

theorem servers_loop_step_inv {sid : String} {sv : SReport} {r : Report}
    (hr : r.inv) (hsv : sv.inv) : (servers_loop_step sid sv r).inv := by
  unfold servers_loop_step
  dsimp only
  split
  · exact hr
  · rename_i hv
    have hvf : sv.valid = false := by
      cases hb : sv.valid
      · rfl
      · exact absurd hb hv
    have he : sv.errors.isEmpty = false := by
      rw [SReport.inv, hvf] at hsv
      exact hsv.symm
    cases hes : sv.errors with
    | nil => rw [hes] at he; simp at he
    | cons a t => simp [Report.inv, hes]

theorem servers_loop_inv {o : Oracles} :
    ∀ {items : List (String × Json)} {r r2 : Report},
    servers_loop o items r = Except.ok r2 → r.inv → r2.inv := by
  intro items
  induction items with
  | nil =>
    intro r r2 h hr
    unfold servers_loop at h
    cases h
    exact hr
  | cons p rest ih =>
    intro r r2 h hr
    unfold servers_loop at h
    iterate 4 (all_goals (try split at h))
    all_goals (try (exact Except.noConfusion h))
    refine ih h (servers_loop_step_inv hr (validate_server_inv (by assumption)))

theorem initial_report_inv (o : Oracles) (cfg : Json) :
    (initial_report o cfg).inv := by
  unfold initial_report
  iterate 4 (all_goals (try split))
  all_goals (first | rfl | exact Report.inv_addError _ _)

theorem validate_config_inv {o : Oracles} {cfg : Json} {r : Report}
    (h : validate_config o cfg = Except.ok r) : r.inv := by
  unfold validate_config at h
  iterate 8 (all_goals (try split at h))
  all_goals (try (exact Except.noConfusion h))
  exact validate_priorities_inv h
    (validate_port_conflicts_inv (by assumption)
      (validate_global_settings_inv (by assumption)
        (servers_loop_inv (by assumption) (initial_report_inv o cfg))))

-- Concrete oracles: no schema file loaded, every command on the PATH,
-- no external port in use.
def plainOracles : Oracles :=
  { schemaCheck := none, which := fun _ => true,
    port_in_use := fun _ => false }

/-- C1: for every configuration document on which validate_config returns a
report, the report has valid = true exactly when its errors list is empty,
so warnings and recommendations never change valid.  The second conjunct
shows the never-raises part of the claim fails on the code: a document whose
mcp_servers entry is a list (not an object) makes validate_config raise
AttributeError at the .items() call instead of returning a report. -/
theorem claim_C1 :
    (∀ (o : Oracles) (config : Json) (r : Report),
        validate_config o config = Except.ok r →
        (r.valid = true ↔ r.errors = [])) ∧
    validate_config plainOracles (Json.obj [("mcp_servers", Json.arr [])]) =
      Except.error "AttributeError: items" := by
  constructor
  · intro o config r h
    have hinv := validate_config_inv h
    rw [Report.inv] at hinv
    constructor
    · intro hv
      rw [hv] at hinv
      exact List.isEmpty_iff.mp hinv.symm
    · intro he
      rw [he] at hinv
      simpa using hinv
  · rfl

-- The report validate_config produces on the empty configuration document.
def c1_sample_report : Report :=
  { valid := true, errors := [], warnings := [], recommendations := [],
    server_validations := [] }

theorem claim_C1_witness :
    c1_sample_report.valid = true ↔ c1_sample_report.errors = [] :=
  claim_C1.1 plainOracles (Json.obj []) c1_sample_report rfl

-- ===========================================================================
-- MCPManager (src/mcp_manager.py): data model
-- ===========================================================================
--
-- The manager reads configuration fields through .get with defaults, so a
-- worker configuration is embedded as a record whose fields carry the
-- resolved values (a missing key is the default value).  Times are Nat
-- seconds; process handles are pids; RPC clients are their base URL;
-- discovered tools are kept by their namespaced name.

inductive ServerStatus where
  | stopped
  | starting
  | running
  | unhealthy
  | failed
deriving Repr, DecidableEq

-- ServerStatus.value (the status strings of the Enum, lines 25-30).
def ServerStatus.value : ServerStatus → String
  | ServerStatus.stopped => "stopped"
  | ServerStatus.starting => "starting"
  | ServerStatus.running => "running"
  | ServerStatus.unhealthy => "unhealthy"
  | ServerStatus.failed => "failed"

-- connection settings (read via .get at lines 125-131, 179, 212-218).
structure ConnectionConfig where
  host : Option String := none
  port : Option Nat := none
  base_url : Option String := none
  startup_delay : Nat := 3
deriving Repr, DecidableEq

-- health_check settings (read via .get at lines 403-426).
structure HealthCheckConfig where
  enabled : Bool := true
  interval : Nat := 30
  timeout : Nat := 10
  retry_count : Nat := 3
deriving Repr, DecidableEq

structure WorkerConfig where
  name : Option String := none
  command : String := ""
  args : List String := []
  environment : List (String × String) := []
  connection : Option ConnectionConfig := none
  health_check : HealthCheckConfig := {}
  enabled : Bool := true
  auto_start : Bool := true
  priority : Int := 5
  category : Option String := none
  capabilities : List String := []
deriving Repr, DecidableEq

structure GlobalSettings where
  port_range_start : Nat := 8000
  port_range_end : Nat := 9000
  auto_recovery : Bool := true
deriving Repr, DecidableEq

structure ManagerConfig where
  mcp_servers : List (String × WorkerConfig) := []
  global_settings : GlobalSettings := {}
deriving Repr, DecidableEq

-- ServerHealth (lines 32-39).  The uptime field of the dataclass is never
-- written by the manager; get_server_status computes uptime separately.
structure ServerHealth where
  status : ServerStatus := ServerStatus.stopped
  last_check : Nat := 0
  failure_count : Nat := 0
  error_message : Option String := none
  uptime : Nat := 0
  start_time : Option Nat := none
deriving Repr, DecidableEq

-- MCP_Server (lines 41-49).
structure Server where
  id : String
  config : WorkerConfig
  process : Option Nat := none
  client : Option String := none
  health : ServerHealth := {}
  tools : List String := []
  port : Option Nat := none
deriving Repr, DecidableEq

-- The mutable manager state: the loaded config (mutable because
-- _create_server_instance writes an allocated port back into it), the
-- registry dict (insertion ordered), and the free port pool (a set,
-- iterated in sorted order by _find_available_port).  The pool is a
-- duplicate-free sorted-on-demand list.
structure ManagerState where
  config : ManagerConfig
  servers : List (String × Server) := []
  port_pool : List Nat := []
deriving Repr, DecidableEq

-- Observable side effects on the outside world, recorded as a trace:
-- start_call marks every entry into start_server, launch a subprocess.Popen
-- that produced a process, terminate/kill the signals sent by stop_server,
-- unhealthy_transition the Running to Unhealthy switch of the health check,
-- restart_attempt the auto-recovery restart_server call.
inductive Event where
  | start_call (id : String)
  | launch (id : String)
  | terminate (id : String)
  | kill (id : String)
  | unhealthy_transition (id : String)
  | restart_attempt (id : String)
deriving Repr, DecidableEq

-- Machine-environment oracles of the manager, keyed by server id:
-- port bind probes, process launch outcome (pid or exception text),
-- whether the process has already exited after the startup delay
-- (exit code and stderr), the tool catalogue handshake, liveness at stop
-- time, graceful-stop timeout, and the health probe outcome.
structure Env where
  now : Nat
  port_avail : Nat → Bool
  launch : String → Except String Nat
  poll_after_start : String → Option (Int × String)
  list_tools : String → Except String (List String)
  proc_alive : String → Bool
  stop_timeout : String → Bool
  probe : String → Option String

-- Association-list lookup: Python dict access by key.
def alookup {α : Type} : List (String × α) → String → Option α
  | [], _ => none
  | p :: rest, id => if p.1 == id then some p.2 else alookup rest id

-- Registry and configuration lookups (Python dict access by key; updates
-- keep the position of an existing key, as dict assignment does).
def lookupServer (st : ManagerState) (id : String) : Option Server :=
  alookup st.servers id

def updateServer (st : ManagerState) (id : String) (s : Server) :
    ManagerState :=
  { st with
    servers := st.servers.map (fun p => if p.1 == id then (p.1, s) else p) }

def lookupConfig (c : ManagerConfig) (id : String) : Option WorkerConfig :=
  alookup c.mcp_servers id

def updateConfigEntry (c : ManagerConfig) (id : String) (w : WorkerConfig) :
    ManagerConfig :=
  { c with
    mcp_servers :=
      c.mcp_servers.map (fun p => if p.1 == id then (p.1, w) else p) }

-- ===========================================================================
-- PortAllocator (lines 105-120 and 289-291)
-- ===========================================================================

-- Ascending insertion used to model sorted(port_pool).
def insertAsc (x : Nat) : List Nat → List Nat
  | [] => [x]
  | y :: ys => if y ≤ x then y :: insertAsc x ys else x :: y :: ys

def sortAsc (l : List Nat) : List Nat :=
  l.foldl (fun acc x => insertAsc x acc) []

-- The loop body of _find_available_port: the first candidate in the given
-- order that passes the live bind probe.
def scan_ports (avail : Nat → Bool) : List Nat → Option Nat
  | [] => none
  | p :: rest => if avail p then some p else scan_ports avail rest

-- _find_available_port (lines 105-111): walk the pool in ascending order,
-- live-probe each candidate, remove and return the first that binds; none
-- models the RuntimeError when no port is available.
def find_available_port (avail : Nat → Bool) (pool : List Nat) :
    Option (Nat × List Nat) :=
  match scan_ports avail (sortAsc pool) with
  | some p => some (p, pool.erase p)
  | none => none

-- set.add of stop_server line 291 (idempotent).
def releasePort (p : Nat) (pool : List Nat) : List Nat :=
  if p ∈ pool then pool else pool ++ [p]

-- The pool built by _load_config line 91: range(start, end + 1).
def initPortPool (s e : Nat) : List Nat := List.range' s (e + 1 - s)

-- ===========================================================================
-- ProcessLifecycleManager (start/stop/restart/start_all, lines 122-331)
-- ===========================================================================

-- _create_server_instance (lines 122-132).  When the config pins no port,
-- an allocated port is written into server_config["connection"]["port"]
-- (mutating the stored configuration); the error is the RuntimeError of
-- _find_available_port, raised outside any try block of start_server.
-- Returns the server, the (possibly updated) config and the new pool.
def create_server_instance (env : Env) (pool : List Nat) (server_id : String)
    (server_config : WorkerConfig) :
    Except String (Server × WorkerConfig × List Nat) :=
  match server_config.connection with
  | some conn =>
    match conn.port with
    | some _ =>
      Except.ok
        ({ id := server_id, config := server_config,
           health := { last_check := env.now }, port := conn.port },
         server_config, pool)
    | none =>
      match find_available_port env.port_avail pool with
      | none => Except.error "No available ports in the configured range"
      | some (p, pool2) =>
        let cfg2 := { server_config with
          connection := some { conn with port := some p } }
        Except.ok
          ({ id := server_id, config := cfg2,
             health := { last_check := env.now }, port := some p },
           cfg2, pool2)
  | none =>
    match find_available_port env.port_avail pool with
    | none => Except.error "No available ports in the configured range"
    | some (p, pool2) =>
      let cfg2 := { server_config with
        connection := some { host := some "localhost", port := some p } }
      Except.ok
        ({ id := server_id, config := cfg2,
           health := { last_check := env.now }, port := some p },
         cfg2, pool2)

-- f-string rendering of an optional port (Python prints None).
def renderPort : Option Nat → String
  | some p => toString p
  | none => "None"

-- The base URL of _connect_to_server (lines 211-218): an explicit
-- base_url wins, else http://host:port with defaults (a missing port
-- renders as None, as the Python f-string does).
def handshake_url (server : Server) : String :=
  let connection := server.config.connection.getD {}
  match connection.base_url with
  | some u => u
  | none =>
    let host := connection.host.getD "localhost"
    let port :=
      match connection.port with
      | some p => some p
      | none => server.port
    "http://" ++ host ++ ":" ++ renderPort port

-- _connect_to_server (lines 208-261): build the base URL, assign the
-- client, then query the tool catalogue; on success replace the tool list
-- with namespaced tools, on exception record error_message and return
-- False with the client still assigned and the old tools kept.
def connect_to_server (env : Env) (server : Server) : Server × Bool :=
  let server1 := { server with client := some (handshake_url server) }
  match env.list_tools server.id with
  | Except.ok names =>
    ({ server1 with tools := names.map (fun n => server.id ++ "_" ++ n) },
     true)
  | Except.error e =>
    ({ server1 with
       health := { server1.health with error_message := some e } },
     false)

-- start_server (lines 134-206).  The Except.error outcome is the
-- RuntimeError of port exhaustion escaping from _create_server_instance
-- (called outside the try).  The Bool is the return value.
def start_server (env : Env) (st : ManagerState) (server_id : String) :
    Except String (Bool × ManagerState × List Event) :=
  let ev0 := [Event.start_call server_id]
  match lookupConfig st.config server_id with
  | none => Except.ok (false, st, ev0)
  | some server_config0 =>
    if !server_config0.enabled then Except.ok (false, st, ev0)
    else
      match
        (match lookupServer st server_id with
         | some _ => Except.ok st
         | none =>
           match create_server_instance env st.port_pool server_id
               server_config0 with
           | Except.error e => Except.error e
           | Except.ok (server, cfg2, pool2) =>
             Except.ok
               { st with
                 servers := st.servers ++ [(server_id, server)],
                 port_pool := pool2,
                 config := updateConfigEntry st.config server_id cfg2 }) with
      | Except.error e => Except.error e
      | Except.ok st1 =>
        match lookupServer st1 server_id with
        | none => Except.ok (false, st1, ev0)
        | some server =>
          if server.health.status = ServerStatus.running then
            Except.ok (true, st1, ev0)
          else
            let health1 := { server.health with
              status := ServerStatus.starting, start_time := some env.now }
            match env.launch server_id with
            | Except.error e =>
              let server2 := { server with
                health := { health1 with
                  status := ServerStatus.failed, error_message := some e } }
              Except.ok (false, updateServer st1 server_id server2, ev0)
            | Except.ok pid =>
              let server2 :=
                { server with process := some pid, health := health1 }
              let ev1 := ev0 ++ [Event.launch server_id]
              match env.poll_after_start server_id with
              | some (code, stderr) =>
                let msg := "Process exited with code " ++ toString code ++
                  ". stderr: " ++ stderr
                let server3 := { server2 with
                  health := { server2.health with
                    status := ServerStatus.failed,
                    error_message := some msg } }
                Except.ok (false, updateServer st1 server_id server3, ev1)
              | none =>
                let cres := connect_to_server env server2
                let server3 := cres.1
                if cres.2 then
                  let server4 := { server3 with
                    health := { server3.health with
                      status := ServerStatus.running, failure_count := 0,
                      error_message := none } }
                  Except.ok (true, updateServer st1 server_id server4, ev1)
                else
                  let server4 := { server3 with
                    health := { server3.health with
                      status := ServerStatus.failed } }
                  Except.ok (false, updateServer st1 server_id server4, ev1)

-- stop_server (lines 263-298): no-op success when untracked; terminate a
-- live process (kill after a grace-period timeout), set status Stopped,
-- clear client and tools, return the port to the pool (Python falsy test:
-- port 0 or None is not returned).  The process handle is not cleared.
def stop_server (env : Env) (st : ManagerState) (server_id : String) :
    Bool × ManagerState × List Event :=
  match lookupServer st server_id with
  | none => (true, st, [])
  | some server =>
    let evs :=
      match server.process with
      | some _ =>
        if env.proc_alive server_id then
          [Event.terminate server_id] ++
            (if env.stop_timeout server_id then [Event.kill server_id]
             else [])
        else []
      | none => []
    let server2 := { server with
      health := { server.health with status := ServerStatus.stopped },
      client := none, tools := [] }
    let pool2 :=
      match server.port with
      | some p => if p != 0 then releasePort p st.port_pool else st.port_pool
      | none => st.port_pool
    (true, { updateServer st server_id server2 with port_pool := pool2 }, evs)

-- restart_server (lines 300-305): stop, brief pause, start.
def restart_server (env : Env) (st : ManagerState) (server_id : String) :
    Except String (Bool × ManagerState × List Event) :=
  match stop_server env st server_id with
  | (_, st1, evs1) =>
    match start_server env st1 server_id with
    | Except.error e => Except.error e
    | Except.ok (ok, st2, evs2) => Except.ok (ok, st2, evs1 ++ evs2)

-- Stable ascending insertion sort on the priority key, modelling the
-- stable Python sorted(server_configs.items(), key=priority) of
-- start_all_servers (lines 313-316): an element is placed after every
-- element of smaller or equal priority already in the list.
def insert_by_priority (x : String × WorkerConfig) :
    List (String × WorkerConfig) → List (String × WorkerConfig)
  | [] => [x]
  | y :: ys =>
    if y.2.priority ≤ x.2.priority then y :: insert_by_priority x ys
    else x :: y :: ys

def sort_by_priority (l : List (String × WorkerConfig)) :
    List (String × WorkerConfig) :=
  l.foldl (fun acc x => insert_by_priority x acc) []

-- The loop of start_all_servers (lines 318-323): start every auto_start
-- worker in sorted order, recording a per-id result (False for skipped
-- workers); a start that raises aborts the whole loop (the exception
-- propagates out of start_all_servers).
def start_all_loop (env : Env) :
    List (String × WorkerConfig) → ManagerState →
    Except String (List (String × Bool) × ManagerState × List Event)
  | [], st => Except.ok ([], st, [])
  | (sid, cfg) :: rest, st =>
    if cfg.auto_start then
      match start_server env st sid with
      | Except.error e => Except.error e
      | Except.ok (ok, st1, evs) =>
        match start_all_loop env rest st1 with
        | Except.error e => Except.error e
        | Except.ok (results, st2, evs2) =>
          Except.ok ((sid, ok) :: results, st2, evs ++ evs2)
    else
      match start_all_loop env rest st with
      | Except.error e => Except.error e
      | Except.ok (results, st2, evs2) =>
        Except.ok ((sid, false) :: results, st2, evs2)

-- start_all_servers (lines 307-325).
def start_all_servers (env : Env) (st : ManagerState) :
    Except String (List (String × Bool) × ManagerState × List Event) :=
  start_all_loop env (sort_by_priority st.config.mcp_servers) st

-- ===========================================================================
-- Status queries (get_server_status, lines 333-351)
-- ===========================================================================

structure StatusInfo where
  id : String
  name : String
  status : String
  uptime : Nat
  last_check : Nat
  failure_count : Nat
  error_message : Option String
  tools_count : Nat
  port : Option Nat
  category : String
  capabilities : List String
deriving Repr, DecidableEq

-- get_server_status: None for an untracked id; otherwise a snapshot whose
-- uptime is now - start_time when start_time is truthy and 0 otherwise.
def get_server_status (now : Nat) (st : ManagerState) (server_id : String) :
    Option StatusInfo :=
  match lookupServer st server_id with
  | none => none
  | some server =>
    some
      { id := server.id,
        name := server.config.name.getD server.id,
        status := server.health.status.value,
        uptime :=
          match server.health.start_time with
          | some t => if t != 0 then now - t else 0
          | none => 0,
        last_check := server.health.last_check,
        failure_count := server.health.failure_count,
        error_message := server.health.error_message,
        tools_count := server.tools.length,
        port := server.port,
        category := server.config.category.getD "unknown",
        capabilities := server.config.capabilities }

-- ===========================================================================
-- HealthMonitor (_check_server_health and _health_monitor_loop,
-- lines 387-437)
-- ===========================================================================

-- _check_server_health (lines 401-437): skip when the per-worker health
-- check is disabled or the interval has not elapsed; probe; on success
-- reset failure_count and error_message; on failure count it, and from
-- retry_count failures switch to Unhealthy, then auto-recover (one
-- synchronous restart_server call) when the global flag is set.
def check_server_health (env : Env) (st : ManagerState) (server : Server) :
    Except String (ManagerState × List Event) :=
  let health_config := server.config.health_check
  if !health_config.enabled then Except.ok (st, [])
  else if env.now - server.health.last_check < health_config.interval then
    Except.ok (st, [])
  else
    match
      (match server.client with
       | some _ => env.probe server.id
       | none => some "No client connection") with
    | none =>
      let server2 := { server with
        health := { server.health with
          last_check := env.now, failure_count := 0,
          error_message := none } }
      Except.ok (updateServer st server.id server2, [])
    | some e =>
      let fc := server.health.failure_count + 1
      let server2 := { server with
        health := { server.health with
          failure_count := fc, error_message := some e,
          last_check := env.now } }
      let st2 := updateServer st server.id server2
      if health_config.retry_count ≤ fc then
        let server3 := { server2 with
          health := { server2.health with
            status := ServerStatus.unhealthy } }
        let st3 := updateServer st2 server.id server3
        if st.config.global_settings.auto_recovery then
          match restart_server env st3 server.id with
          | Except.error e2 => Except.error e2
          | Except.ok (_, st4, evs2) =>
            Except.ok (st4,
              [Event.unhealthy_transition server.id,
               Event.restart_attempt server.id] ++ evs2)
        else Except.ok (st3, [Event.unhealthy_transition server.id])
      else Except.ok (st2, [])

-- One pass of _health_monitor_loop (lines 389-394) over a snapshot of the
-- registry keys: only Running workers are probed.  An exception escaping a
-- check aborts the rest of the pass (caught by the loop-level handler);
-- for tracked workers restart_server cannot raise, so that arm is dead.
def monitor_pass (env : Env) :
    List String → ManagerState → List Event → ManagerState × List Event
  | [], st, acc => (st, acc)
  | id :: rest, st, acc =>
    match lookupServer st id with
    | none => monitor_pass env rest st acc
    | some server =>
      if server.health.status = ServerStatus.running then
        match check_server_health env st server with
        | Except.error _ => (st, acc)
        | Except.ok (st2, evs) => monitor_pass env rest st2 (acc ++ evs)
      else monitor_pass env rest st acc

def monitor_tick (env : Env) (st : ManagerState) :
    ManagerState × List Event :=
  monitor_pass env (st.servers.map Prod.fst) st []

-- Iterated monitor ticks, one environment per tick.
def run_ticks : List Env → ManagerState → ManagerState × List Event
  | [], st => (st, [])
  | e :: rest, st =>
    match monitor_tick e st with
    | (st1, evs1) =>
      match run_ticks rest st1 with
      | (st2, evs2) => (st2, evs1 ++ evs2)

-- ===========================================================================
-- Registry helper lemmas
-- ===========================================================================

theorem alookup_update {α : Type} (id : String) (s2 : α) :
    ∀ (l : List (String × α)),
    (alookup l id).isSome = true →
    alookup (l.map (fun p => if p.1 == id then (p.1, s2) else p)) id =
      some s2 := by
  intro l
  induction l with
  | nil => intro h; simp [alookup] at h
  | cons p rest ih =>
    intro h
    by_cases hp : (p.1 == id) = true
    · simp [alookup, hp]
    · have hp2 : (p.1 == id) = false := by simpa using hp
      simp only [alookup, hp2, List.map_cons, Bool.false_eq_true,
        if_false] at h ⊢
      exact ih h

theorem lookupServer_updateServer {st : ManagerState} {id : String}
    {s : Server} (s2 : Server) (hs : lookupServer st id = some s) :
    lookupServer (updateServer st id s2) id = some s2 := by
  unfold lookupServer at hs ⊢
  unfold updateServer
  exact alookup_update id s2 st.servers (by rw [hs]; rfl)

theorem updateServer_config (st : ManagerState) (id : String) (s : Server) :
    (updateServer st id s).config = st.config := rfl

theorem updateServer_pool (st : ManagerState) (id : String) (s : Server) :
    (updateServer st id s).port_pool = st.port_pool := rfl

-- ===========================================================================
-- C10: status queries on unknown and just-created workers
-- ===========================================================================

/-- C10: get_server_status returns none (no exception, no error record) for
an id with no registry record, and for a tracked worker whose start_time is
unset the reported uptime is 0. -/
theorem claim_C10 :
    (∀ (now : Nat) (st : ManagerState) (id : String),
        lookupServer st id = none → get_server_status now st id = none) ∧
    (∀ (now : Nat) (st : ManagerState) (id : String) (s : Server),
        lookupServer st id = some s → s.health.start_time = none →
        (get_server_status now st id).map StatusInfo.uptime = some 0) := by
  constructor
  · intro now st id h
    unfold get_server_status
    rw [h]
  · intro now st id s h hst
    unfold get_server_status
    simp [h, hst]

def c10_server : Server :=
  { id := "w", config := { command := "x" },
    health := { start_time := none } }

def c10_state : ManagerState :=
  { config := { mcp_servers := [("w", { command := "x" })] },
    servers := [("w", c10_server)] }

theorem claim_C10_witness :
    get_server_status 5 c10_state "absent" = none ∧
    (get_server_status 5 c10_state "w").map StatusInfo.uptime = some 0 :=
  ⟨claim_C10.1 5 c10_state "absent" rfl,
   claim_C10.2 5 c10_state "w" c10_server rfl rfl⟩

-- ===========================================================================
-- C7: start on an already-Running worker is a pure no-op success
-- ===========================================================================

/-- C7: for a worker that is configured, enabled and tracked with status
Running, start_server returns True, performs no launch (the only event is
the start_call instrumentation marker) and leaves the whole manager state
unchanged, so the assigned port, process handle and capability list of the
worker are unchanged. -/
theorem claim_C7 (env : Env) (st : ManagerState) (id : String)
    (cfg : WorkerConfig) (s : Server)
    (hc : lookupConfig st.config id = some cfg)
    (he : cfg.enabled = true)
    (hs : lookupServer st id = some s)
    (hr : s.health.status = ServerStatus.running) :
    start_server env st id = Except.ok (true, st, [Event.start_call id]) := by
  unfold start_server
  simp [hc, he, hs, hr]

def c7_server : Server :=
  { id := "w", config := { command := "x" }, process := some 3,
    client := some "http://localhost:8000",
    health := { status := ServerStatus.running }, tools := ["w_t"],
    port := some 8000 }

def c7_state : ManagerState :=
  { config := { mcp_servers := [("w", { command := "x" })] },
    servers := [("w", c7_server)] }

def quiet_env : Env :=
  { now := 9, port_avail := fun _ => true,
    launch := fun _ => Except.error "spawn failed",
    poll_after_start := fun _ => none,
    list_tools := fun _ => Except.error "no tools",
    proc_alive := fun _ => false, stop_timeout := fun _ => false,
    probe := fun _ => none }

theorem claim_C7_witness :
    start_server quiet_env c7_state "w" =
      Except.ok (true, c7_state, [Event.start_call "w"]) :=
  claim_C7 quiet_env c7_state "w" { command := "x" } c7_server
    rfl rfl rfl rfl

-- ===========================================================================
-- C4: start on a disabled worker returns failure, not success
-- ===========================================================================

def c4_state : ManagerState :=
  { config := { mcp_servers := [("d", { command := "x", enabled := false })] } }

/-- C4 counterexample: on a configured but disabled worker, start_server
returns False, while the claim says the no-op returns success. -/
theorem claim_C4_counterexample :
    (start_server quiet_env c4_state "d").toOption.map (fun r => r.1) =
      some false := rfl

/-- C4 amended: start on a disabled worker is a no-op that returns failure
(False), exactly like start on an id absent from the configuration; in both
cases the manager state is unchanged and no process is touched. -/
theorem claim_C4 (env : Env) (st : ManagerState) (id : String) :
    (∀ cfg, lookupConfig st.config id = some cfg → cfg.enabled = false →
        start_server env st id =
          Except.ok (false, st, [Event.start_call id])) ∧
    (lookupConfig st.config id = none →
        start_server env st id =
          Except.ok (false, st, [Event.start_call id])) := by
  constructor
  · intro cfg hc hd
    unfold start_server
    simp [hc, hd]
  · intro hc
    unfold start_server
    simp [hc]

theorem claim_C4_witness :
    start_server quiet_env c4_state "d" =
      Except.ok (false, c4_state, [Event.start_call "d"]) ∧
    start_server quiet_env c4_state "absent" =
      Except.ok (false, c4_state, [Event.start_call "absent"]) :=
  ⟨(claim_C4 quiet_env c4_state "d").1 { command := "x", enabled := false }
      rfl rfl,
   (claim_C4 quiet_env c4_state "absent").2 rfl⟩

-- ===========================================================================
-- C5: what stop actually clears (the process handle is retained)
-- ===========================================================================

def c5_server : Server :=
  { id := "w", config := { command := "x" }, process := some 7,
    client := some "http://localhost:8000",
    health :=
      { status := ServerStatus.running, failure_count := 2,
        error_message := some "probe failed", start_time := some 4,
        last_check := 6 },
    tools := ["w_t"], port := some 8000 }

def c5_state : ManagerState :=
  { config := { mcp_servers := [("w", { command := "x" })] },
    servers := [("w", c5_server)], port_pool := [] }

/-- C5 counterexample: after stop_server the process handle of the worker
record is still present (the code never clears server.process), while the
claim says the process handle is cleared. -/
theorem claim_C5_counterexample :
    (lookupServer (stop_server quiet_env c5_state "w").2.1 "w").map
      Server.process = some (some 7) := rfl

/-- C5 amended: after stop_server on a tracked worker the record persists
with status Stopped, the RPC client is cleared, the capability list is
emptied and a nonzero allocated port is returned to the free pool; the
process handle and every other field of the record (config, port,
failure_count, error_message, start_time, last_check) are unchanged, and
the stored configuration is untouched. -/
theorem claim_C5 (env : Env) (st : ManagerState) (id : String) (s : Server)
    (hs : lookupServer st id = some s) :
    ∃ st2 evs, stop_server env st id = (true, st2, evs) ∧
      ∃ s2, lookupServer st2 id = some s2 ∧
        s2.health.status = ServerStatus.stopped ∧
        s2.client = none ∧
        s2.tools = [] ∧
        s2.process = s.process ∧
        s2.port = s.port ∧
        s2.config = s.config ∧
        s2.id = s.id ∧
        s2.health.failure_count = s.health.failure_count ∧
        s2.health.error_message = s.health.error_message ∧
        s2.health.start_time = s.health.start_time ∧
        s2.health.last_check = s.health.last_check ∧
        st2.config = st.config ∧
        st2.port_pool =
          (match s.port with
           | some p =>
             if p != 0 then releasePort p st.port_pool else st.port_pool
           | none => st.port_pool) := by
  unfold stop_server
  rw [hs]
  refine ⟨_, _, rfl, ?_⟩
  refine ⟨_, lookupServer_updateServer _ hs, ?_⟩
  exact ⟨rfl, rfl, rfl, rfl, rfl, rfl, rfl, rfl, rfl, rfl, rfl, rfl, rfl⟩

-- ===========================================================================
-- C8: handshake failure leaves the process running and the worker Failed
-- ===========================================================================

theorem connect_to_server_fail {env : Env} {s : Server} {e : String}
    (ht : env.list_tools s.id = Except.error e) :
    connect_to_server env s =
      ({ s with
         client := some (handshake_url s),
         health := { s.health with error_message := some e } }, false) := by
  unfold connect_to_server
  rw [ht]

/-- C8: for a tracked, configured, enabled, non-Running worker whose process
launches (pid returned), stays alive through the startup delay, and whose
readiness handshake raises, start_server returns failure; the final status
is Failed with error_message set to the non-empty handshake error, the
process handle still holds the launched pid, and the event trace contains
only the start_call marker and the launch itself: no terminate and no kill
is ever issued, so the spawned process is left running. -/
theorem claim_C8 (env : Env) (st : ManagerState) (id : String)
    (cfg : WorkerConfig) (s : Server) (pid : Nat) (e : String)
    (hc : lookupConfig st.config id = some cfg)
    (hen : cfg.enabled = true)
    (hs : lookupServer st id = some s)
    (hid : s.id = id)
    (hnr : s.health.status ≠ ServerStatus.running)
    (hl : env.launch id = Except.ok pid)
    (hp : env.poll_after_start id = none)
    (ht : env.list_tools id = Except.error e)
    (hne : e ≠ "") :
    ∃ st2, start_server env st id =
        Except.ok (false, st2, [Event.start_call id, Event.launch id]) ∧
      ∃ s2, lookupServer st2 id = some s2 ∧
        s2.health.status = ServerStatus.failed ∧
        s2.health.error_message = some e ∧
        s2.health.error_message ≠ some "" ∧
        s2.health.error_message ≠ none ∧
        s2.process = some pid ∧
        s2.health.start_time = some env.now := by
  have key : start_server env st id =
      Except.ok (false,
        updateServer st id
          { s with
            process := some pid,
            client := some (handshake_url s),
            health :=
              { s.health with
                status := ServerStatus.failed,
                error_message := some e,
                start_time := some env.now } },
        [Event.start_call id, Event.launch id]) := by
    unfold start_server
    rw [hc]
    simp only [hen, Bool.not_true, Bool.false_eq_true, if_false, hs]
    rw [if_neg hnr]
    simp only [hl, hp]
    rw [connect_to_server_fail (by simpa [hid] using ht)]
    rfl
  rw [key]
  refine ⟨_, rfl, _, lookupServer_updateServer _ hs, rfl, rfl,
    (by simpa using hne), (by simp), rfl, rfl⟩

def c8_server : Server :=
  { id := "w",
    config :=
      { command := "x",
        connection := some { host := some "h", port := some 8000 } } }

def c8_state : ManagerState :=
  { config := { mcp_servers := [("w", c8_server.config)] },
    servers := [("w", c8_server)] }

def c8_env : Env :=
  { now := 11, port_avail := fun _ => true,
    launch := fun _ => Except.ok 42,
    poll_after_start := fun _ => none,
    list_tools := fun _ => Except.error "handshake timed out",
    proc_alive := fun _ => true, stop_timeout := fun _ => false,
    probe := fun _ => none }

theorem claim_C8_witness :
    ∃ st2, start_server c8_env c8_state "w" =
        Except.ok (false, st2, [Event.start_call "w", Event.launch "w"]) ∧
      ∃ s2, lookupServer st2 "w" = some s2 ∧
        s2.health.status = ServerStatus.failed ∧
        s2.health.error_message = some "handshake timed out" ∧
        s2.health.error_message ≠ some "" ∧
        s2.health.error_message ≠ none ∧
        s2.process = some 42 ∧
        s2.health.start_time = some c8_env.now :=
  claim_C8 c8_env c8_state "w" c8_server.config c8_server 42
    "handshake timed out" rfl rfl rfl rfl (by decide) rfl rfl rfl
    (by decide)

-- ===========================================================================
-- C9: the loaded configuration is mutated by record creation
-- ===========================================================================

def c9_worker : WorkerConfig := { command := "x" }

def c9_state : ManagerState :=
  { config := { mcp_servers := [("w", c9_worker)] },
    servers := [], port_pool := [8000] }

/-- C9 counterexample: starting a worker whose config pins no port writes
the allocated port into the stored configuration: after start_server the
config of worker w differs from the loaded one (connection.port is now
8000), refuting the claim that no supervisor operation modifies any
configuration field. -/
theorem claim_C9_counterexample :
    (start_server quiet_env c9_state "w").toOption.map
        (fun r => lookupConfig r.2.1.config "w") =
      some (some { c9_worker with
        connection := some { host := some "localhost", port := some 8000 } }) ∧
    some { c9_worker with
        connection := some { host := some "localhost", port := some 8000 } } ≠
      some c9_worker := by
  constructor
  · rfl
  · decide

theorem map_update_not_mem {α : Type} (id : String) (w : α) :
    ∀ (l : List (String × α)), id ∉ l.map Prod.fst →
    l.map (fun p => if p.1 == id then (p.1, w) else p) = l := by
  intro l
  induction l with
  | nil => intro _; rfl
  | cons p rest ih =>
    intro h
    simp only [List.map_cons, List.mem_cons, not_or] at h
    have hp : (p.1 == id) = false := by
      simpa using fun he => h.1 he.symm
    simp only [List.map_cons, hp, Bool.false_eq_true, if_false]
    rw [ih h.2]

theorem map_update_self {α : Type} (id : String) (w : α) :
    ∀ (l : List (String × α)), (l.map Prod.fst).Nodup →
    alookup l id = some w →
    l.map (fun p => if p.1 == id then (p.1, w) else p) = l := by
  intro l
  induction l with
  | nil => intro _ h; simp [alookup] at h
  | cons p rest ih =>
    intro hnd h
    simp only [List.map_cons, List.nodup_cons] at hnd
    by_cases hp : (p.1 == id) = true
    · have hpe : p.1 = id := by simpa using hp
      simp only [alookup, hp, if_true, Option.some.injEq] at h
      subst h
      have hrest : rest.map (fun q => if q.1 == id then (q.1, p.2) else q) =
          rest := by
        refine map_update_not_mem id p.2 rest ?_
        rw [← hpe]
        exact hnd.1
      simp only [List.map_cons]
      rw [hrest]
      simp [hp]
    · have hp2 : (p.1 == id) = false := by simpa using hp
      simp only [alookup, hp2, Bool.false_eq_true, if_false] at h
      simp only [List.map_cons, hp2, Bool.false_eq_true, if_false]
      rw [ih hnd.2 h]

theorem updateConfigEntry_self {c : ManagerConfig} {id : String}
    {w : WorkerConfig} (hnd : (c.mcp_servers.map Prod.fst).Nodup)
    (hl : lookupConfig c id = some w) :
    updateConfigEntry c id w = c := by
  unfold updateConfigEntry
  unfold lookupConfig at hl
  rw [map_update_self id w c.mcp_servers hnd hl]

-- _create_server_instance on a config whose connection pins a port:
-- no allocation, the config is returned unchanged.
theorem create_pinned {env : Env} {pool : List Nat} {id : String}
    {cfg : WorkerConfig} {conn : ConnectionConfig} {p : Nat}
    (hconn : cfg.connection = some conn) (hport : conn.port = some p) :
    create_server_instance env pool id cfg =
      Except.ok
        ({ id := id, config := cfg, health := { last_check := env.now },
           port := some p }, cfg, pool) := by
  unfold create_server_instance
  simp [hconn, hport]

/-- C9 amended: the stored WorkerConfig is immutable under stop (always),
under start on an already-tracked worker, and under start of a worker whose
configuration pins a port; the one exception, exhibited by the
counterexample, is the first record creation of a worker with no pinned
port, where start writes the allocated port into the stored connection
settings. -/
theorem claim_C9 :
    (∀ (env : Env) (st : ManagerState) (id : String),
        (stop_server env st id).2.1.config = st.config) ∧
    (∀ (env : Env) (st : ManagerState) (id : String) (s : Server)
        (b : Bool) (st2 : ManagerState) (evs : List Event),
        lookupServer st id = some s →
        start_server env st id = Except.ok (b, st2, evs) →
        st2.config = st.config) ∧
    (∀ (env : Env) (st : ManagerState) (id : String) (cfg : WorkerConfig)
        (conn : ConnectionConfig) (p : Nat) (b : Bool) (st2 : ManagerState)
        (evs : List Event),
        (st.config.mcp_servers.map Prod.fst).Nodup →
        lookupConfig st.config id = some cfg →
        cfg.connection = some conn → conn.port = some p →
        start_server env st id = Except.ok (b, st2, evs) →
        st2.config = st.config) := by
  refine ⟨?_, ?_, ?_⟩
  · intro env st id
    unfold stop_server
    split
    · rfl
    · rfl
  · intro env st id s b st2 evs hs h
    unfold start_server at h
    simp only [hs] at h
    iterate 12 (all_goals (try split at h))
    all_goals (try (exact Except.noConfusion h))
    all_goals (injection h with h)
    all_goals (rw [Prod.mk.injEq, Prod.mk.injEq] at h)
    all_goals (obtain ⟨h1, h2, h3⟩ := h)
    all_goals (subst h2)
    all_goals rfl
  · intro env st id cfg conn p b st2 evs hnd hc hconn hport h
    cases hl : lookupServer st id with
    | some s0 =>
      unfold start_server at h
      simp only [hc, hl] at h
      iterate 14 (all_goals (try split at h))
      all_goals (try (exact Except.noConfusion h))
      all_goals (injection h with h)
      all_goals (rw [Prod.mk.injEq, Prod.mk.injEq] at h)
      all_goals (obtain ⟨h1, h2, h3⟩ := h)
      all_goals (subst h2)
      all_goals rfl
    | none =>
      unfold start_server at h
      simp only [hc, hl] at h
      rw [create_pinned hconn hport] at h
      dsimp only at h
      rw [updateConfigEntry_self hnd hc] at h
      iterate 14 (all_goals (try split at h))
      all_goals (try (exact Except.noConfusion h))
      all_goals (injection h with h)
      all_goals (rw [Prod.mk.injEq, Prod.mk.injEq] at h)
      all_goals (obtain ⟨h1, h2, h3⟩ := h)
      all_goals (subst h2)
      all_goals rfl

def c9b_worker : WorkerConfig :=
  { command := "x", connection := some { host := some "h", port := some 7001 } }

def c9b_state : ManagerState :=
  { config := { mcp_servers := [("w", c9b_worker)] } }

-- The state after a first, pinned-port, failing start of c9b_worker.
def c9b_after : ManagerState :=
  { config := { mcp_servers := [("w", c9b_worker)] },
    servers :=
      [("w",
        { id := "w", config := c9b_worker, process := none, client := none,
          health :=
            { status := ServerStatus.failed, last_check := 9,
              failure_count := 0, error_message := some "spawn failed",
              uptime := 0, start_time := some 9 },
          tools := [], port := some 7001 })],
    port_pool := [] }

theorem claim_C9_witness :
    (stop_server quiet_env c5_state "w").2.1.config = c5_state.config ∧
    c7_state.config = c7_state.config ∧
    c9b_after.config = c9b_state.config :=
  ⟨claim_C9.1 quiet_env c5_state "w",
   claim_C9.2.1 quiet_env c7_state "w" c7_server true c7_state
     [Event.start_call "w"] rfl rfl,
   claim_C9.2.2 quiet_env c9b_state "w" c9b_worker
     { host := some "h", port := some 7001 } 7001 false c9b_after
     [Event.start_call "w"] (by decide) rfl rfl rfl rfl⟩

theorem claim_C5_witness :
    ∃ st2 evs, stop_server quiet_env c5_state "w" = (true, st2, evs) ∧
      ∃ s2, lookupServer st2 "w" = some s2 ∧
        s2.health.status = ServerStatus.stopped ∧
        s2.client = none ∧
        s2.tools = [] ∧
        s2.process = c5_server.process ∧
        s2.port = c5_server.port ∧
        s2.config = c5_server.config ∧
        s2.id = c5_server.id ∧
        s2.health.failure_count = c5_server.health.failure_count ∧
        s2.health.error_message = c5_server.health.error_message ∧
        s2.health.start_time = c5_server.health.start_time ∧
        s2.health.last_check = c5_server.health.last_check ∧
        st2.config = c5_state.config ∧
        st2.port_pool =
          (match c5_server.port with
           | some p =>
             if p != 0 then releasePort p c5_state.port_pool
             else c5_state.port_pool
           | none => c5_state.port_pool) :=
  claim_C5 quiet_env c5_state "w" c5_server rfl

-- ===========================================================================
-- C6: the port allocator
-- ===========================================================================

theorem mem_insertAsc {x y : Nat} :
    ∀ {l : List Nat}, y ∈ insertAsc x l ↔ y = x ∨ y ∈ l := by
  intro l
  induction l with
  | nil => simp [insertAsc]
  | cons z zs ih =>
    simp only [insertAsc]
    split
    · simp only [List.mem_cons, ih]
      tauto
    · simp only [List.mem_cons]
      try tauto

theorem sorted_insertAsc {x : Nat} :
    ∀ {l : List Nat}, l.Pairwise (· ≤ ·) →
    (insertAsc x l).Pairwise (· ≤ ·) := by
  intro l
  induction l with
  | nil => intro _; simp [insertAsc]
  | cons z zs ih =>
    intro h
    rw [List.pairwise_cons] at h
    simp only [insertAsc]
    split
    · rename_i hzx
      rw [List.pairwise_cons]
      refine ⟨?_, ih h.2⟩
      intro a ha
      rw [mem_insertAsc] at ha
      cases ha with
      | inl he => rw [he]; exact hzx
      | inr hm => exact h.1 a hm
    · rename_i hzx
      have hxz : x ≤ z := Nat.le_of_lt (Nat.lt_of_not_le hzx)
      rw [List.pairwise_cons]
      refine ⟨?_, List.pairwise_cons.mpr ⟨h.1, h.2⟩⟩
      intro a ha
      cases (List.mem_cons).mp ha with
      | inl he => rw [he]; exact hxz
      | inr hm => exact Nat.le_trans hxz (h.1 a hm)

theorem sortAsc_aux :
    ∀ (l acc : List Nat), acc.Pairwise (· ≤ ·) →
    (List.foldl (fun a x => insertAsc x a) acc l).Pairwise (· ≤ ·) ∧
    (∀ y, y ∈ List.foldl (fun a x => insertAsc x a) acc l ↔
      y ∈ acc ∨ y ∈ l) := by
  intro l
  induction l with
  | nil =>
    intro acc h
    exact ⟨h, by simp⟩
  | cons x xs ih =>
    intro acc h
    have h2 := ih (insertAsc x acc) (sorted_insertAsc h)
    refine ⟨h2.1, ?_⟩
    intro y
    rw [List.foldl_cons, h2.2 y, mem_insertAsc]
    simp only [List.mem_cons]
    tauto

theorem sortAsc_sorted (l : List Nat) : (sortAsc l).Pairwise (· ≤ ·) :=
  (sortAsc_aux l [] (by simp)).1

theorem mem_sortAsc {y : Nat} {l : List Nat} : y ∈ sortAsc l ↔ y ∈ l := by
  have := (sortAsc_aux l [] (by simp)).2 y
  simpa [sortAsc] using this

theorem scan_ports_some {avail : Nat → Bool} {p : Nat} :
    ∀ {l : List Nat}, l.Pairwise (· ≤ ·) →
    scan_ports avail l = some p →
    avail p = true ∧ p ∈ l ∧ ∀ q ∈ l, q < p → avail q = false := by
  intro l
  induction l with
  | nil => intro _ h; simp [scan_ports] at h
  | cons x xs ih =>
    intro hs h
    rw [List.pairwise_cons] at hs
    unfold scan_ports at h
    by_cases ha : avail x = true
    · rw [if_pos ha] at h
      injection h with h
      subst h
      refine ⟨ha, List.mem_cons_self _ _, ?_⟩
      intro q hq hlt
      cases (List.mem_cons).mp hq with
      | inl he => omega
      | inr hm =>
        have := hs.1 q hm
        omega
    · have ha2 : avail x = false := by
        cases hb : avail x
        · rfl
        · exact absurd hb ha
      rw [if_neg ha] at h
      have := ih hs.2 h
      refine ⟨this.1, List.mem_cons_of_mem _ this.2.1, ?_⟩
      intro q hq hlt
      cases (List.mem_cons).mp hq with
      | inl he => rw [he]; exact ha2
      | inr hm => exact this.2.2 q hm hlt

theorem scan_ports_none {avail : Nat → Bool} :
    ∀ {l : List Nat},
    scan_ports avail l = none ↔ ∀ q ∈ l, avail q = false := by
  intro l
  induction l with
  | nil => simp [scan_ports]
  | cons x xs ih =>
    unfold scan_ports
    by_cases ha : avail x = true
    · rw [if_pos ha]
      simp [ha]
    · have ha2 : avail x = false := by
        cases hb : avail x
        · rfl
        · exact absurd hb ha
      rw [if_neg ha]
      rw [ih]
      constructor
      · intro hall q hq
        cases (List.mem_cons).mp hq with
        | inl he => rw [he]; exact ha2
        | inr hm => exact hall q hm
      · intro hall q hq
        exact hall q (List.mem_cons_of_mem _ hq)

theorem find_available_port_some {avail : Nat → Bool} {pool pool2 : List Nat}
    {p : Nat} (h : find_available_port avail pool = some (p, pool2)) :
    avail p = true ∧ p ∈ pool ∧
    (∀ q ∈ pool, q < p → avail q = false) ∧ pool2 = pool.erase p := by
  unfold find_available_port at h
  cases hscan : scan_ports avail (sortAsc pool) with
  | none => rw [hscan] at h; cases h
  | some p0 =>
    rw [hscan] at h
    injection h with h
    have hp0 := scan_ports_some (sortAsc_sorted pool) hscan
    rw [Prod.mk.injEq] at h
    obtain ⟨h1, h2⟩ := h
    subst h1
    subst h2
    refine ⟨hp0.1, mem_sortAsc.mp hp0.2.1, ?_, rfl⟩
    intro q hq hlt
    exact hp0.2.2 q (mem_sortAsc.mpr hq) hlt

theorem find_available_port_none {avail : Nat → Bool} {pool : List Nat} :
    find_available_port avail pool = none ↔ ∀ q ∈ pool, avail q = false := by
  unfold find_available_port
  cases hscan : scan_ports avail (sortAsc pool) with
  | none =>
    constructor
    · intro _ q hq
      exact (scan_ports_none).mp hscan q (mem_sortAsc.mpr hq)
    · intro _
      rfl
  | some p0 =>
    constructor
    · intro h
      cases h
    · intro hall
      exfalso
      have hp0 := scan_ports_some (sortAsc_sorted pool) hscan
      have := hall p0 (mem_sortAsc.mp hp0.2.1)
      rw [this] at hp0
      exact Bool.noConfusion hp0.1

-- N sequential allocations (stopping at the first failure).
def alloc_list (avail : Nat → Bool) : Nat → List Nat → List Nat
  | 0, _ => []
  | n + 1, pool =>
    match find_available_port avail pool with
    | none => []
    | some (p, pool2) => p :: alloc_list avail n pool2

theorem alloc_list_nodup_sub {avail : Nat → Bool} :
    ∀ (n : Nat) (pool : List Nat), pool.Nodup →
    (alloc_list avail n pool).Nodup ∧
    ∀ p ∈ alloc_list avail n pool, p ∈ pool := by
  intro n
  induction n with
  | zero => intro pool _; simp [alloc_list]
  | succ m ih =>
    intro pool hnd
    unfold alloc_list
    cases hf : find_available_port avail pool with
    | none => simp
    | some pr =>
      obtain ⟨p, pool2⟩ := pr
      have hfp := find_available_port_some hf
      have hpool2 : pool2 = pool.erase p := hfp.2.2.2
      have hnd2 : pool2.Nodup := by rw [hpool2]; exact hnd.erase p
      have hrest := ih pool2 hnd2
      constructor
      · rw [List.nodup_cons]
        refine ⟨?_, hrest.1⟩
        intro hmem
        have := hrest.2 p hmem
        rw [hpool2] at this
        exact ((List.Nodup.mem_erase_iff hnd).mp this).1 rfl
      · intro q hq
        cases (List.mem_cons).mp hq with
        | inl he => rw [he]; exact hfp.2.1
        | inr hm =>
          have := hrest.2 q hm
          rw [hpool2] at this
          exact List.mem_of_mem_erase this

theorem mem_releasePort {p q : Nat} {pool : List Nat} :
    q ∈ releasePort p pool ↔ q ∈ pool ∨ q = p := by
  unfold releasePort
  split
  · rename_i hmem
    constructor
    · intro h; exact Or.inl h
    · intro h
      cases h with
      | inl h2 => exact h2
      | inr h2 => rw [h2]; exact hmem
  · simp [List.mem_append]

/-- C6: properties of the port allocator.  First, a successful allocation
returns a port of the pool that passes the live probe, is the smallest such
candidate (candidates are tried in ascending order), and is removed from the
pool.  Second, allocation fails (the RuntimeError of _find_available_port)
exactly when no pooled port passes the probe.  Third, any number of
sequential successful allocations from a duplicate-free pool yields
pairwise-distinct ports drawn from the pool, so allocations from the
configured range [start, end] stay within that range.  Fourth, after
release(p), p is eligible again: an allocation returns exactly p whenever p
passes the probe and no smaller pooled candidate does. -/
theorem claim_C6 :
    (∀ (avail : Nat → Bool) (pool pool2 : List Nat) (p : Nat),
        find_available_port avail pool = some (p, pool2) →
        avail p = true ∧ p ∈ pool ∧
        (∀ q ∈ pool, q < p → avail q = false) ∧ pool2 = pool.erase p) ∧
    (∀ (avail : Nat → Bool) (pool : List Nat),
        find_available_port avail pool = none ↔
        ∀ q ∈ pool, avail q = false) ∧
    (∀ (avail : Nat → Bool) (n : Nat) (s e : Nat)
        (p : Nat), p ∈ alloc_list avail n (initPortPool s e) →
        s ≤ p ∧ p ≤ e) ∧
    (∀ (avail : Nat → Bool) (n : Nat) (pool : List Nat), pool.Nodup →
        (alloc_list avail n pool).Nodup) ∧
    (∀ (avail : Nat → Bool) (pool : List Nat) (p : Nat),
        avail p = true → (∀ q ∈ pool, q < p → avail q = false) →
        find_available_port avail (releasePort p pool) =
          some (p, (releasePort p pool).erase p)) := by
  refine ⟨?_, ?_, ?_, ?_, ?_⟩
  · intro avail pool pool2 p h
    exact find_available_port_some h
  · intro avail pool
    exact find_available_port_none
  · intro avail n s e p hp
    have hnd : (initPortPool s e).Nodup := by
      unfold initPortPool
      exact List.nodup_range' s (e + 1 - s)
    have := (alloc_list_nodup_sub n (initPortPool s e) hnd).2 p hp
    unfold initPortPool at this
    rw [List.mem_range'] at this
    omega
  · intro avail n pool hnd
    exact (alloc_list_nodup_sub n pool hnd).1
  · intro avail pool p hp hmin
    cases hf : find_available_port avail (releasePort p pool) with
    | none =>
      have := (find_available_port_none).mp hf p (mem_releasePort.mpr
        (Or.inr rfl))
      rw [hp] at this
      exact Bool.noConfusion this
    | some pr =>
      obtain ⟨p0, pool2⟩ := pr
      have h0 := find_available_port_some hf
      have hpe : p0 = p := by
        rcases Nat.lt_trichotomy p0 p with hlt | heq | hgt
        · have hm : p0 ∈ pool ∨ p0 = p := mem_releasePort.mp h0.2.1
          cases hm with
          | inl hm2 =>
            have := hmin p0 hm2 hlt
            rw [this] at h0
            exact absurd h0.1 (by simp)
          | inr hm2 => omega
        · exact heq
        · have := h0.2.2.1 p (mem_releasePort.mpr (Or.inr rfl)) hgt
          rw [hp] at this
          exact Bool.noConfusion this
      subst hpe
      rw [h0.2.2.2]

-- A probe environment where only port 8000 is externally taken.
def avail0 : Nat → Bool := fun p => p != 8000

def c6_pool : List Nat := [8000, 8001, 8002]

theorem claim_C6_witness :
    (avail0 8001 = true ∧ 8001 ∈ c6_pool ∧
      (∀ q ∈ c6_pool, q < 8001 → avail0 q = false) ∧
      [8000, 8002] = c6_pool.erase 8001) ∧
    (8000 ≤ 8001 ∧ 8001 ≤ 8002) ∧
    (alloc_list avail0 3 c6_pool).Nodup ∧
    find_available_port avail0 (releasePort 8001 [8002]) =
      some (8001, (releasePort 8001 [8002]).erase 8001) :=
  ⟨claim_C6.1 avail0 c6_pool [8000, 8002] 8001 rfl,
   claim_C6.2.2.1 avail0 2 8000 8002 8001 (by decide),
   claim_C6.2.2.2.1 avail0 3 c6_pool (by decide),
   claim_C6.2.2.2.2 avail0 [8002] 8001 rfl (by decide)⟩

-- ===========================================================================
-- C3: start_all order, skipping, and the per-id result map
-- ===========================================================================

-- The ids on which start_server was actually entered, in call order.
def start_calls (evs : List Event) : List String :=
  evs.filterMap (fun ev =>
    match ev with
    | Event.start_call i => some i
    | _ => none)

theorem start_calls_append (a b : List Event) :
    start_calls (a ++ b) = start_calls a ++ start_calls b := by
  unfold start_calls
  exact List.filterMap_append a b _

theorem start_server_events {env : Env} {st : ManagerState} {id : String}
    {ok : Bool} {st2 : ManagerState} {evs : List Event}
    (h : start_server env st id = Except.ok (ok, st2, evs)) :
    evs = [Event.start_call id] ∨
    evs = [Event.start_call id, Event.launch id] := by
  unfold start_server at h
  dsimp only at h
  iterate 14 (all_goals (try split at h))
  all_goals (try (exact Except.noConfusion h))
  all_goals (injection h with h)
  all_goals (rw [Prod.mk.injEq, Prod.mk.injEq] at h)
  all_goals (obtain ⟨h1, h2, h3⟩ := h)
  all_goals (subst h3)
  all_goals (first | exact Or.inl rfl | exact Or.inr rfl)

theorem start_calls_of_start {env : Env} {st : ManagerState} {id : String}
    {ok : Bool} {st2 : ManagerState} {evs : List Event}
    (h : start_server env st id = Except.ok (ok, st2, evs)) :
    start_calls evs = [id] := by
  cases start_server_events h with
  | inl he => rw [he]; rfl
  | inr he => rw [he]; rfl

theorem start_all_loop_spec (env : Env) :
    ∀ (l : List (String × WorkerConfig)) (st : ManagerState)
    (results : List (String × Bool)) (st2 : ManagerState)
    (evs : List Event),
    start_all_loop env l st = Except.ok (results, st2, evs) →
    results.map Prod.fst = l.map Prod.fst ∧
    start_calls evs =
      (l.filter (fun p => p.2.auto_start)).map Prod.fst := by
  intro l
  induction l with
  | nil =>
    intro st results st2 evs h
    unfold start_all_loop at h
    injection h with h
    rw [Prod.mk.injEq, Prod.mk.injEq] at h
    obtain ⟨h1, h2, h3⟩ := h
    subst h1
    subst h3
    exact ⟨rfl, rfl⟩
  | cons p rest ih =>
    intro st results st2 evs h
    unfold start_all_loop at h
    by_cases ha : p.2.auto_start = true
    · rw [if_pos ha] at h
      cases hss : start_server env st p.1 with
      | error e => rw [hss] at h; cases h
      | ok r =>
        obtain ⟨ok1, st1, evs1⟩ := r
        rw [hss] at h
        dsimp only at h
        cases hloop : start_all_loop env rest st1 with
        | error e => rw [hloop] at h; cases h
        | ok r2 =>
          obtain ⟨results2, st22, evs2⟩ := r2
          rw [hloop] at h
          dsimp only at h
          injection h with h
          rw [Prod.mk.injEq, Prod.mk.injEq] at h
          obtain ⟨h1, h2, h3⟩ := h
          subst h1
          subst h3
          have hrest := ih st1 results2 st22 evs2 hloop
          constructor
          · simp [hrest.1]
          · rw [start_calls_append, start_calls_of_start hss, hrest.2]
            simp [List.filter_cons, ha]
    · have ha2 : p.2.auto_start = false := by
        cases hb : p.2.auto_start
        · rfl
        · exact absurd hb ha
      simp only [ha2, Bool.false_eq_true, if_false] at h
      cases hloop : start_all_loop env rest st with
      | error e => rw [hloop] at h; cases h
      | ok r2 =>
        obtain ⟨results2, st22, evs2⟩ := r2
        rw [hloop] at h
        dsimp only at h
        injection h with h
        rw [Prod.mk.injEq, Prod.mk.injEq] at h
        obtain ⟨h1, h2, h3⟩ := h
        subst h1
        subst h3
        have hrest := ih st results2 st22 evs2 hloop
        constructor
        · simp [hrest.1]
        · rw [hrest.2]
          simp [List.filter_cons, ha2]

-- Stable-sort lemmas for sort_by_priority.

theorem insert_by_priority_perm (x : String × WorkerConfig) :
    ∀ (l : List (String × WorkerConfig)),
    (insert_by_priority x l).Perm (x :: l) := by
  intro l
  induction l with
  | nil => exact List.Perm.refl _
  | cons y ys ih =>
    unfold insert_by_priority
    split
    · exact ((ih.cons y).trans (List.Perm.swap x y ys)).symm.symm
    · exact List.Perm.refl _

theorem sort_by_priority_perm_aux :
    ∀ (l acc : List (String × WorkerConfig)),
    (List.foldl (fun a x => insert_by_priority x a) acc l).Perm
      (acc ++ l) := by
  intro l
  induction l with
  | nil => intro acc; simp
  | cons x xs ih =>
    intro acc
    rw [List.foldl_cons]
    refine (ih (insert_by_priority x acc)).trans ?_
    refine (List.Perm.append_right xs (insert_by_priority_perm x acc)).trans
      ?_
    have : (x :: acc) ++ xs = x :: (acc ++ xs) := rfl
    rw [this]
    exact (List.perm_middle).symm.symm.symm

theorem sort_by_priority_perm (l : List (String × WorkerConfig)) :
    (sort_by_priority l).Perm l := by
  have := sort_by_priority_perm_aux l []
  simpa [sort_by_priority] using this

theorem mem_insert_by_priority {x y : String × WorkerConfig} :
    ∀ {l : List (String × WorkerConfig)},
    y ∈ insert_by_priority x l ↔ y = x ∨ y ∈ l := by
  intro l
  exact ⟨fun h => (List.mem_cons).mp ((insert_by_priority_perm x l).mem_iff.mp h),
    fun h => (insert_by_priority_perm x l).mem_iff.mpr
      ((List.mem_cons).mpr h)⟩

theorem sorted_insert_by_priority {x : String × WorkerConfig} :
    ∀ {l : List (String × WorkerConfig)},
    l.Pairwise (fun a b => a.2.priority ≤ b.2.priority) →
    (insert_by_priority x l).Pairwise
      (fun a b => a.2.priority ≤ b.2.priority) := by
  intro l
  induction l with
  | nil => intro _; simp [insert_by_priority]
  | cons z zs ih =>
    intro h
    rw [List.pairwise_cons] at h
    unfold insert_by_priority
    split
    · rename_i hzx
      rw [List.pairwise_cons]
      refine ⟨?_, ih h.2⟩
      intro a ha
      rw [mem_insert_by_priority] at ha
      cases ha with
      | inl he => rw [he]; exact hzx
      | inr hm => exact h.1 a hm
    · rename_i hzx
      have hxz : x.2.priority ≤ z.2.priority := le_of_lt (lt_of_not_le hzx)
      rw [List.pairwise_cons]
      refine ⟨?_, List.pairwise_cons.mpr ⟨h.1, h.2⟩⟩
      intro a ha
      cases (List.mem_cons).mp ha with
      | inl he => rw [he]; exact hxz
      | inr hm => exact le_trans hxz (h.1 a hm)

theorem sort_by_priority_sorted_aux :
    ∀ (l acc : List (String × WorkerConfig)),
    acc.Pairwise (fun a b => a.2.priority ≤ b.2.priority) →
    (List.foldl (fun a x => insert_by_priority x a) acc l).Pairwise
      (fun a b => a.2.priority ≤ b.2.priority) := by
  intro l
  induction l with
  | nil => intro acc h; exact h
  | cons x xs ih =>
    intro acc h
    rw [List.foldl_cons]
    exact ih (insert_by_priority x acc) (sorted_insert_by_priority h)

theorem sort_by_priority_sorted (l : List (String × WorkerConfig)) :
    (sort_by_priority l).Pairwise
      (fun a b => a.2.priority ≤ b.2.priority) :=
  sort_by_priority_sorted_aux l [] (by simp)

theorem insert_by_priority_filter (x : String × WorkerConfig) (k : Int) :
    ∀ (l : List (String × WorkerConfig)),
    l.Pairwise (fun a b => a.2.priority ≤ b.2.priority) →
    (insert_by_priority x l).filter (fun p => p.2.priority == k) =
      l.filter (fun p => p.2.priority == k) ++
        (if x.2.priority == k then [x] else []) := by
  intro l
  induction l with
  | nil =>
    intro _
    unfold insert_by_priority
    cases hxk : (x.2.priority == k) <;> simp [List.filter, hxk]
  | cons y ys ih =>
    intro hs
    rw [List.pairwise_cons] at hs
    unfold insert_by_priority
    split
    · rename_i hyx
      rw [List.filter_cons, List.filter_cons]
      rw [ih hs.2]
      split
      · simp
      · simp
    · rename_i hyx
      have hxy : x.2.priority < y.2.priority := lt_of_not_le hyx
      by_cases hxk : (x.2.priority == k) = true
      · have hxk2 : x.2.priority = k := by simpa using hxk
        have hys : (y :: ys).filter (fun p => p.2.priority == k) = [] := by
          rw [List.filter_eq_nil_iff]
          intro a ha
          have hya : y.2.priority ≤ a.2.priority := by
            cases (List.mem_cons).mp ha with
            | inl he => rw [he]
            | inr hm => exact hs.1 a hm
          simp only [beq_iff_eq]
          omega
        rw [List.filter_cons, hys]
        simp [hxk]
      · have hxk2 : (x.2.priority == k) = false := by
          cases hb : (x.2.priority == k)
          · rfl
          · exact absurd hb hxk
        rw [List.filter_cons, List.filter_cons, hxk2]
        simp

theorem sort_by_priority_filter_aux (k : Int) :
    ∀ (l acc : List (String × WorkerConfig)),
    acc.Pairwise (fun a b => a.2.priority ≤ b.2.priority) →
    (List.foldl (fun a x => insert_by_priority x a) acc l).filter
        (fun p => p.2.priority == k) =
      acc.filter (fun p => p.2.priority == k) ++
        l.filter (fun p => p.2.priority == k) := by
  intro l
  induction l with
  | nil => intro acc _; simp
  | cons x xs ih =>
    intro acc h
    rw [List.foldl_cons]
    rw [ih (insert_by_priority x acc) (sorted_insert_by_priority h)]
    rw [insert_by_priority_filter x k acc h]
    rw [List.filter_cons]
    split
    · simp
    · simp

-- Stability: within every priority class, the sorted order is exactly the
-- declaration order.
theorem sort_by_priority_stable (l : List (String × WorkerConfig))
    (k : Int) :
    (sort_by_priority l).filter (fun p => p.2.priority == k) =
      l.filter (fun p => p.2.priority == k) := by
  have := sort_by_priority_filter_aux k l [] (by simp)
  simpa [sort_by_priority] using this

-- Two enabled auto_start workers with no pinned port over an empty port
-- pool: the first start raises the port-exhaustion RuntimeError outside
-- the try block of start_server, aborting the whole start_all loop, so
-- the second worker is never attempted and no per-id map is returned.
def c3x_state : ManagerState :=
  { config := { mcp_servers :=
      [("a", { command := "x", priority := 1,
               connection := some { host := some "h" } }),
       ("b", { command := "x", priority := 2,
               connection := some { host := some "h" } })] } }

theorem claim_C3_counterexample :
    start_all_servers quiet_env c3x_state =
      Except.error "No available ports in the configured range" ∧
    ¬ ∃ res, start_all_servers quiet_env c3x_state = Except.ok res := by
  refine ⟨rfl, ?_⟩
  intro h
  obtain ⟨res, hres⟩ := h
  have h1 : start_all_servers quiet_env c3x_state =
      Except.error "No available ports in the configured range" := rfl
  rw [h1] at hres
  exact Except.noConfusion hres

/-- C3 amended: when start_all_servers does return a result map (the
port-exhaustion RuntimeError from an unpinned worker over an exhausted
pool escapes the loop instead, as the counterexample shows), the
result map lists every configured worker id in ascending-priority order
(per-id success map over all workers), the set of ids is exactly the
configured ids, start_server is entered exactly on the auto_start workers
in that same sorted order — one call each, regardless of earlier failures —
and the sorted order is ascending by priority with ties kept in
declaration order (each priority class keeps its original sequence). -/
theorem claim_C3 (env : Env) (st : ManagerState)
    (results : List (String × Bool)) (st2 : ManagerState)
    (evs : List Event)
    (h : start_all_servers env st = Except.ok (results, st2, evs)) :
    results.map Prod.fst =
      (sort_by_priority st.config.mcp_servers).map Prod.fst ∧
    (results.map Prod.fst).Perm (st.config.mcp_servers.map Prod.fst) ∧
    start_calls evs =
      ((sort_by_priority st.config.mcp_servers).filter
        (fun p => p.2.auto_start)).map Prod.fst ∧
    (sort_by_priority st.config.mcp_servers).Pairwise
      (fun a b => a.2.priority ≤ b.2.priority) ∧
    (∀ k : Int,
      (sort_by_priority st.config.mcp_servers).filter
          (fun p => p.2.priority == k) =
        st.config.mcp_servers.filter (fun p => p.2.priority == k)) := by
  unfold start_all_servers at h
  have hspec := start_all_loop_spec env (sort_by_priority
    st.config.mcp_servers) st results st2 evs h
  refine ⟨hspec.1, ?_, hspec.2, sort_by_priority_sorted _, ?_⟩
  · rw [hspec.1]
    exact (sort_by_priority_perm st.config.mcp_servers).map Prod.fst
  · intro k
    exact sort_by_priority_stable st.config.mcp_servers k

def c3_cfg (pr : Int) (auto : Bool) (port : Nat) : WorkerConfig :=
  { command := "x", auto_start := auto, priority := pr,
    connection := some { host := some "h", port := some port } }

-- Priorities in declaration order: a:3, b:1, c:2 (auto_start off), d:2.
def c3_state : ManagerState :=
  { config := { mcp_servers :=
      [("a", c3_cfg 3 true 8103), ("b", c3_cfg 1 true 8101),
       ("c", c3_cfg 2 false 8102), ("d", c3_cfg 2 true 8104)] } }

def c3_results : List (String × Bool) :=
  [("b", false), ("c", false), ("d", false), ("a", false)]

def c3_evs : List Event :=
  [Event.start_call "b", Event.start_call "d", Event.start_call "a"]

def c3_failed (id : String) (pr : Int) (port : Nat) : Server :=
  { id := id, config := c3_cfg pr true port, process := none, client := none,
    health :=
      { status := ServerStatus.failed, last_check := 9, failure_count := 0,
        error_message := some "spawn failed", uptime := 0,
        start_time := some 9 },
    tools := [], port := some port }

def c3_st2 : ManagerState :=
  { config := c3_state.config,
    servers :=
      [("b", c3_failed "b" 1 8101), ("d", c3_failed "d" 2 8104),
       ("a", c3_failed "a" 3 8103)],
    port_pool := [] }

theorem claim_C3_witness :
    (c3_results.map Prod.fst =
      (sort_by_priority c3_state.config.mcp_servers).map Prod.fst) ∧
    ((c3_results.map Prod.fst).Perm
      (c3_state.config.mcp_servers.map Prod.fst)) ∧
    (start_calls c3_evs =
      ((sort_by_priority c3_state.config.mcp_servers).filter
        (fun p => p.2.auto_start)).map Prod.fst) ∧
    ((sort_by_priority c3_state.config.mcp_servers).Pairwise
      (fun a b => a.2.priority ≤ b.2.priority)) ∧
    (∀ k : Int,
      (sort_by_priority c3_state.config.mcp_servers).filter
          (fun p => p.2.priority == k) =
        c3_state.config.mcp_servers.filter (fun p => p.2.priority == k)) :=
  claim_C3 quiet_env c3_state c3_results c3_st2 c3_evs rfl

-- ===========================================================================
-- C2: the health-monitor failure counter and the Unhealthy transition
-- ===========================================================================

-- A single monitored worker with interval 0 (every tick probes) and
-- retry_count r, pinned to port 8000.
def c2_worker (r : Nat) : WorkerConfig :=
  { command := "x",
    connection := some { host := some "h", port := some 8000 },
    health_check := { enabled := true, interval := 0, retry_count := r } }

def c2_server (r : Nat) (stt : ServerStatus) (fc : Nat)
    (msg : Option String) : Server :=
  { id := "w", config := c2_worker r, process := some 1,
    client := some "http://h:8000",
    health :=
      { status := stt, last_check := 5, failure_count := fc,
        error_message := msg, uptime := 0, start_time := some 4 },
    tools := ["w_t"], port := some 8000 }

def c2_state (r : Nat) (b : Bool) (stt : ServerStatus) (fc : Nat)
    (msg : Option String) : ManagerState :=
  { config :=
      { mcp_servers := [("w", c2_worker r)],
        global_settings := { auto_recovery := b } },
    servers := [("w", c2_server r stt fc msg)], port_pool := [] }

-- Every probe of worker w fails with message e; restarts fail at launch.
def c2_env (e : String) : Env :=
  { now := 5, port_avail := fun _ => false,
    launch := fun _ => Except.error "spawn failed",
    poll_after_start := fun _ => none,
    list_tools := fun _ => Except.error "no tools",
    proc_alive := fun _ => false, stop_timeout := fun _ => false,
    probe := fun _ => some e }

-- Every probe succeeds.
def c2_env_ok : Env :=
  { now := 5, port_avail := fun _ => false,
    launch := fun _ => Except.error "spawn failed",
    poll_after_start := fun _ => none,
    list_tools := fun _ => Except.error "no tools",
    proc_alive := fun _ => false, stop_timeout := fun _ => false,
    probe := fun _ => none }

-- The single-worker state after the Unhealthy transition triggered a
-- failing auto-recovery restart: stop cleared client/tools and released
-- the port, the relaunch raised, so the worker ends Failed.
def c2_after_failed_restart (r : Nat) (fc : Nat) : ManagerState :=
  { config :=
      { mcp_servers := [("w", c2_worker r)],
        global_settings := { auto_recovery := true } },
    servers :=
      [("w",
        { id := "w", config := c2_worker r, process := some 1,
          client := none,
          health :=
            { status := ServerStatus.failed, last_check := 5,
              failure_count := fc, error_message := some "spawn failed",
              uptime := 0, start_time := some 5 },
          tools := [], port := some 8000 })],
    port_pool := [8000] }

-- One tick on a Running worker below the retry budget: the counter
-- increments, no transition, no events.
theorem c2_tick_count (r : Nat) (b : Bool) (fc : Nat) (msg : Option String)
    (e : String) (h : fc + 1 < r) :
    monitor_tick (c2_env e) (c2_state r b ServerStatus.running fc msg) =
      (c2_state r b ServerStatus.running (fc + 1) (some e), []) := by
  have hle : ¬ (r ≤ fc + 1) := by omega
  simp only [monitor_tick, monitor_pass, c2_state, c2_server, c2_worker,
    c2_env, lookupServer, alookup, check_server_health, updateServer,
    List.map, beq_self_eq_true, if_true, hle]
  norm_num

-- The transition tick without auto-recovery: status switches to Unhealthy
-- once, with the transition event and nothing else.
theorem c2_tick_unhealthy (r : Nat) (fc : Nat) (msg : Option String)
    (e : String) (h : r ≤ fc + 1) :
    monitor_tick (c2_env e) (c2_state r false ServerStatus.running fc msg) =
      (c2_state r false ServerStatus.unhealthy (fc + 1) (some e),
       [Event.unhealthy_transition "w"]) := by
  simp only [monitor_tick, monitor_pass, c2_state, c2_server, c2_worker,
    c2_env, lookupServer, alookup, check_server_health, updateServer,
    List.map, beq_self_eq_true, if_true, h]
  norm_num [h]

-- The transition tick with auto-recovery: one transition event and one
-- restart attempt; the restart itself fails at launch, leaving Failed.
theorem c2_tick_recover (r : Nat) (fc : Nat) (msg : Option String)
    (e : String) (h : r ≤ fc + 1) :
    monitor_tick (c2_env e) (c2_state r true ServerStatus.running fc msg) =
      (c2_after_failed_restart r (fc + 1),
       [Event.unhealthy_transition "w", Event.restart_attempt "w",
        Event.start_call "w"]) := by
  simp only [monitor_tick, monitor_pass, c2_state, c2_server, c2_worker,
    c2_env, lookupServer, alookup, check_server_health, updateServer,
    restart_server, stop_server, start_server, lookupConfig, releasePort,
    c2_after_failed_restart, List.map, beq_self_eq_true, if_true, h]
  norm_num [h]
  simp

-- A successful probe resets the failure counter and clears the message.
theorem c2_tick_reset (r : Nat) (b : Bool) (fc : Nat) (msg : Option String) :
    monitor_tick c2_env_ok (c2_state r b ServerStatus.running fc msg) =
      (c2_state r b ServerStatus.running 0 none, []) := by
  simp only [monitor_tick, monitor_pass, c2_state, c2_server, c2_worker,
    c2_env_ok, lookupServer, alookup, check_server_health, updateServer,
    List.map, beq_self_eq_true, if_true]
  norm_num

-- The monitor skips every non-Running worker: a tick is a no-op.
theorem monitor_tick_skip (env : Env) (st : ManagerState) (id : String)
    (s : Server) (hs : st.servers = [(id, s)])
    (hnr : s.health.status ≠ ServerStatus.running) :
    monitor_tick env st = (st, []) := by
  simp only [monitor_tick, monitor_pass, lookupServer, alookup, hs,
    List.map, beq_self_eq_true, if_true, hnr]
  norm_num [hnr]

-- run_ticks distributes over appended tick lists.
theorem run_ticks_append :
    ∀ (l1 l2 : List Env) (st : ManagerState),
    run_ticks (l1 ++ l2) st =
      ((run_ticks l2 (run_ticks l1 st).1).1,
       (run_ticks l1 st).2 ++ (run_ticks l2 (run_ticks l1 st).1).2) := by
  intro l1
  induction l1 with
  | nil => intro l2 st; simp [run_ticks]
  | cons e1 rest ih =>
    intro l2 st
    simp only [List.cons_append, run_ticks]
    rw [List.append_eq, ih]
    simp [run_ticks]

-- The recorded error message after k failing probes.
def c2_msg (k : Nat) (msg : Option String) (e : String) : Option String :=
  if k = 0 then msg else some e

-- k failing ticks below the budget: counter k higher, still Running,
-- no events.
theorem c2_run_below (r : Nat) (b : Bool) (e : String) :
    ∀ (k fc : Nat) (msg : Option String), fc + k < r →
    run_ticks (List.replicate k (c2_env e))
        (c2_state r b ServerStatus.running fc msg) =
      (c2_state r b ServerStatus.running (fc + k) (c2_msg k msg e), []) := by
  intro k
  induction k with
  | zero =>
    intro fc msg h
    simp [run_ticks, c2_msg]
  | succ m ih =>
    intro fc msg h
    rw [List.replicate_succ]
    simp only [run_ticks]
    rw [c2_tick_count r b fc msg e (by omega)]
    rw [ih (fc + 1) (some e) (by omega)]
    have h1 : fc + 1 + m = fc + (m + 1) := by omega
    have h2 : c2_msg m (some e) e = c2_msg (m + 1) msg e := by
      cases m <;> simp [c2_msg]
    rw [h1, h2]
    simp

-- Ticks on a single non-Running worker do nothing.
theorem c2_run_skip (env : Env) :
    ∀ (m : Nat) (st : ManagerState) (id : String) (s : Server),
    st.servers = [(id, s)] → s.health.status ≠ ServerStatus.running →
    run_ticks (List.replicate m env) st = (st, []) := by
  intro m
  induction m with
  | zero => intro st id s _ _; rfl
  | succ k ih =>
    intro st id s hs hnr
    rw [List.replicate_succ]
    simp only [run_ticks]
    rw [monitor_tick_skip env st id s hs hnr]
    rw [ih st id s hs hnr]
    simp

-- Lookups ignore the port pool.
theorem lookup_set_pool (st : ManagerState) (pool : List Nat) (id : String) :
    lookupServer { st with port_pool := pool } id = lookupServer st id := rfl

-- Appending a fresh key is found by lookup when the key was absent.
theorem alookup_append_self {α : Type} (id : String) (x : α) :
    ∀ l : List (String × α), alookup l id = none →
    alookup (l ++ [(id, x)]) id = some x := by
  intro l
  induction l with
  | nil => intro _; simp [alookup]
  | cons p rest ih =>
    intro h
    by_cases hp : (p.1 == id) = true
    · simp [alookup, hp] at h
    · have hp2 : (p.1 == id) = false := by simpa using hp
      simp only [alookup, hp2, Bool.false_eq_true, if_false,
        List.cons_append] at h ⊢
      exact ih h

-- A record produced by _create_server_instance starts out Stopped.
theorem create_server_instance_status (env : Env) (pool : List Nat)
    (id : String) (cfg : WorkerConfig) (server : Server)
    (cfg2 : WorkerConfig) (pool2 : List Nat)
    (h : create_server_instance env pool id cfg =
      Except.ok (server, cfg2, pool2)) :
    server.health.status = ServerStatus.stopped := by
  unfold create_server_instance at h
  iterate 3 (all_goals (try split at h))
  all_goals (try (exact Except.noConfusion h))
  all_goals (try (dsimp only at h))
  all_goals (injection h with h)
  all_goals (rw [Prod.mk.injEq, Prod.mk.injEq] at h)
  all_goals (obtain ⟨h1, h2, h3⟩ := h)
  all_goals (rw [← h1])

-- After stop_server, the tracked record for the stopped id is never
-- Running (it is Stopped when tracked at all).
theorem stop_nonrunning (env : Env) (st : ManagerState) (id : String)
    (ok1 : Bool) (st1 : ManagerState) (evs1 : List Event)
    (h : stop_server env st id = (ok1, st1, evs1)) :
    ∀ s, lookupServer st1 id = some s →
      s.health.status ≠ ServerStatus.running := by
  intro s hs hrun
  unfold stop_server at h
  cases hl : lookupServer st id with
  | none =>
    rw [hl] at h
    rw [Prod.mk.injEq, Prod.mk.injEq] at h
    obtain ⟨h1, h2, h3⟩ := h
    subst h2
    rw [hl] at hs
    exact Option.noConfusion hs
  | some server =>
    rw [hl] at h
    simp only [Prod.mk.injEq] at h
    obtain ⟨h1, h2, h3⟩ := h
    subst h2
    rw [lookup_set_pool] at hs
    rw [lookupServer_updateServer _ hl] at hs
    injection hs with hs
    subst hs
    simp at hrun
-- A successful start of a worker that is not currently Running leaves a
-- tracked record with failure_count 0, status Running and no error
-- message (lines 191-199 of start_server).
theorem start_true_resets (env : Env) (st : ManagerState) (id : String)
    (st2 : ManagerState) (evs : List Event)
    (hpre : ∀ s, lookupServer st id = some s →
      s.health.status ≠ ServerStatus.running)
    (h : start_server env st id = Except.ok (true, st2, evs)) :
    ∃ s2, lookupServer st2 id = some s2 ∧
      s2.health.failure_count = 0 ∧
      s2.health.status = ServerStatus.running ∧
      s2.health.error_message = none := by
  unfold start_server at h
  cases hcfg : lookupConfig st.config id with
  | none =>
    rw [hcfg] at h
    dsimp only at h
    injection h with h
    rw [Prod.mk.injEq, Prod.mk.injEq] at h
    obtain ⟨h1, h2, h3⟩ := h
    exact Bool.noConfusion h1
  | some cfg0 =>
    rw [hcfg] at h
    dsimp only at h
    by_cases hen : cfg0.enabled
    · rw [if_neg (by simp [hen])] at h
      cases hl : lookupServer st id with
      | some s0 =>
        simp only [hl] at h
        rw [if_neg (hpre s0 hl)] at h
        cases hlaunch : env.launch id with
        | error e =>
          rw [hlaunch] at h
          dsimp only at h
          injection h with h
          rw [Prod.mk.injEq, Prod.mk.injEq] at h
          obtain ⟨h1, h2, h3⟩ := h
          exact Bool.noConfusion h1
        | ok pid =>
          rw [hlaunch] at h
          dsimp only at h
          cases hpoll : env.poll_after_start id with
          | some pr =>
            cases pr with
            | mk code stderr =>
              rw [hpoll] at h
              dsimp only at h
              injection h with h
              rw [Prod.mk.injEq, Prod.mk.injEq] at h
              obtain ⟨h1, h2, h3⟩ := h
              exact Bool.noConfusion h1
          | none =>
            rw [hpoll] at h
            dsimp only at h
            split at h
            · injection h with h
              rw [Prod.mk.injEq, Prod.mk.injEq] at h
              obtain ⟨h1, h2, h3⟩ := h
              subst h2
              exact ⟨_, lookupServer_updateServer _ hl, rfl, rfl, rfl⟩
            · injection h with h
              rw [Prod.mk.injEq, Prod.mk.injEq] at h
              obtain ⟨h1, h2, h3⟩ := h
              exact Bool.noConfusion h1
      | none =>
        simp only [hl] at h
        cases hcr : create_server_instance env st.port_pool id cfg0 with
        | error e =>
          rw [hcr] at h
          dsimp only at h
          exact Except.noConfusion h
        | ok trip =>
          cases trip with
          | mk server rest =>
            cases rest with
            | mk cfg2 pool2 =>
              rw [hcr] at h
              dsimp only at h
              have hstat := create_server_instance_status env st.port_pool
                id cfg0 server cfg2 pool2 hcr
              have hl1 :
                  lookupServer
                    { st with
                      servers := st.servers ++ [(id, server)],
                      port_pool := pool2,
                      config := updateConfigEntry st.config id cfg2 } id =
                    some server := by
                unfold lookupServer
                exact alookup_append_self id server st.servers hl
              simp only [hl1] at h
              have hnotrun :
                  ¬ server.health.status = ServerStatus.running := by
                rw [hstat]
                intro hc
                exact ServerStatus.noConfusion hc
              rw [if_neg hnotrun] at h
              cases hlaunch : env.launch id with
              | error e =>
                rw [hlaunch] at h
                dsimp only at h
                injection h with h
                rw [Prod.mk.injEq, Prod.mk.injEq] at h
                obtain ⟨h1, h2, h3⟩ := h
                exact Bool.noConfusion h1
              | ok pid =>
                rw [hlaunch] at h
                dsimp only at h
                cases hpoll : env.poll_after_start id with
                | some pr =>
                  cases pr with
                  | mk code stderr =>
                    rw [hpoll] at h
                    dsimp only at h
                    injection h with h
                    rw [Prod.mk.injEq, Prod.mk.injEq] at h
                    obtain ⟨h1, h2, h3⟩ := h
                    exact Bool.noConfusion h1
                | none =>
                  rw [hpoll] at h
                  dsimp only at h
                  split at h
                  · injection h with h
                    rw [Prod.mk.injEq, Prod.mk.injEq] at h
                    obtain ⟨h1, h2, h3⟩ := h
                    subst h2
                    exact ⟨_, lookupServer_updateServer _ hl1, rfl, rfl, rfl⟩
                  · injection h with h
                    rw [Prod.mk.injEq, Prod.mk.injEq] at h
                    obtain ⟨h1, h2, h3⟩ := h
                    exact Bool.noConfusion h1
    · rw [if_pos (by simp [hen])] at h
      injection h with h
      rw [Prod.mk.injEq, Prod.mk.injEq] at h
      obtain ⟨h1, h2, h3⟩ := h
      exact Bool.noConfusion h1

-- A successful restart always leaves the restarted worker tracked with a
-- reset failure counter, Running status and no error message: the stop
-- half guarantees the record is not Running, the start half then rebuilds
-- its health record.
theorem restart_success_resets (env : Env) (st : ManagerState) (id : String)
    (st2 : ManagerState) (evs : List Event)
    (h : restart_server env st id = Except.ok (true, st2, evs)) :
    ∃ s2, lookupServer st2 id = some s2 ∧
      s2.health.failure_count = 0 ∧
      s2.health.status = ServerStatus.running ∧
      s2.health.error_message = none := by
  unfold restart_server at h
  rcases hstop : stop_server env st id with ⟨ok1, st1, evs1⟩
  rw [hstop] at h
  dsimp only at h
  cases hstart : start_server env st1 id with
  | error e =>
    rw [hstart] at h
    exact Except.noConfusion h
  | ok t =>
    rcases t with ⟨ok2, st2a, evs2⟩
    rw [hstart] at h
    dsimp only at h
    injection h with h
    rw [Prod.mk.injEq, Prod.mk.injEq] at h
    obtain ⟨h1, h2, h3⟩ := h
    subst h1
    subst h2
    exact start_true_resets env st1 id st2a evs2
      (stop_nonrunning env st id ok1 st1 evs1 hstop) hstart
-- The full failing run without auto-recovery: over r + m failing ticks
-- the transition fires at tick r and never again; the only event of the
-- whole trace is the single transition event.
theorem c2_run_over_norec (r m : Nat) (e : String) (hr : 1 ≤ r) :
    run_ticks (List.replicate (r + m) (c2_env e))
        (c2_state r false ServerStatus.running 0 none) =
      (c2_state r false ServerStatus.unhealthy r (some e),
       [Event.unhealthy_transition "w"]) := by
  have hsplit : r + m = (r - 1) + (m + 1) := by omega
  rw [hsplit, List.replicate_add, run_ticks_append]
  rw [c2_run_below r false e (r - 1) 0 none (by omega)]
  rw [List.replicate_succ]
  simp only [run_ticks]
  rw [c2_tick_unhealthy r (0 + (r - 1)) (c2_msg (r - 1) none e) e (by omega)]
  dsimp only
  rw [c2_run_skip (c2_env e) m _ "w"
    (c2_server r ServerStatus.unhealthy (0 + (r - 1) + 1) (some e)) rfl
    (by simp [c2_server])]
  have hfc : 0 + (r - 1) + 1 = r := by omega
  rw [hfc]
  simp

-- The full failing run with auto-recovery: the transition fires at tick r
-- with exactly one restart attempt; the failing relaunch leaves the worker
-- Failed and the remaining m ticks are no-ops (no further transition, no
-- further restart).
theorem c2_run_over_rec (r m : Nat) (e : String) (hr : 1 ≤ r) :
    run_ticks (List.replicate (r + m) (c2_env e))
        (c2_state r true ServerStatus.running 0 none) =
      (c2_after_failed_restart r r,
       [Event.unhealthy_transition "w", Event.restart_attempt "w",
        Event.start_call "w"]) := by
  have hsplit : r + m = (r - 1) + (m + 1) := by omega
  rw [hsplit, List.replicate_add, run_ticks_append]
  rw [c2_run_below r true e (r - 1) 0 none (by omega)]
  rw [List.replicate_succ]
  simp only [run_ticks]
  rw [c2_tick_recover r (0 + (r - 1)) (c2_msg (r - 1) none e) e (by omega)]
  dsimp only
  rw [c2_run_skip (c2_env e) m _ "w"
    ({ id := "w", config := c2_worker r, process := some 1, client := none,
       health :=
         { status := ServerStatus.failed, last_check := 5,
           failure_count := 0 + (r - 1) + 1,
           error_message := some "spawn failed", uptime := 0,
           start_time := some 5 },
       tools := [], port := some 8000 }) rfl (by simp)]
  have hfc : 0 + (r - 1) + 1 = r := by omega
  rw [hfc]
  simp
/-- C2: for the monitored Running worker family c2_state (retry budget r,
interval 0) under consecutive failing probes: (i) during the first k < r
ticks the worker stays Running with failure_count k and an empty event
trace, so the Unhealthy transition fires only at tick r; (ii) over any
longer run of r + m failing ticks the Running-to-Unhealthy transition
event occurs exactly once (it does not re-fire on later ticks, the worker
having left Running); (iii) with auto_recovery on, exactly one restart
attempt is made over the whole run - one per transition, not one per tick
- and none with auto_recovery off; (iv) a successful probe resets
failure_count to 0 (and clears the error message); (v) any successful
restart of any worker in any state leaves its record with failure_count 0
and status Running. -/
theorem claim_C2 (r : Nat) (b : Bool) (e : String) (m : Nat) (hr : 1 ≤ r) :
    (∀ k, k < r →
      run_ticks (List.replicate k (c2_env e))
          (c2_state r b ServerStatus.running 0 none) =
        (c2_state r b ServerStatus.running k (c2_msg k none e), [])) ∧
    ((run_ticks (List.replicate (r + m) (c2_env e))
        (c2_state r b ServerStatus.running 0 none)).2.count
          (Event.unhealthy_transition "w") = 1) ∧
    ((run_ticks (List.replicate (r + m) (c2_env e))
        (c2_state r b ServerStatus.running 0 none)).2.count
          (Event.restart_attempt "w") = if b then 1 else 0) ∧
    (∀ (fc : Nat) (msg : Option String),
      monitor_tick c2_env_ok (c2_state r b ServerStatus.running fc msg) =
        (c2_state r b ServerStatus.running 0 none, [])) ∧
    (∀ (env : Env) (st st2 : ManagerState) (id : String)
        (evs : List Event),
      restart_server env st id = Except.ok (true, st2, evs) →
      ∃ s2, lookupServer st2 id = some s2 ∧
        s2.health.failure_count = 0 ∧
        s2.health.status = ServerStatus.running) := by
  refine ⟨?_, ?_, ?_, ?_, ?_⟩
  · intro k hk
    have hb := c2_run_below r b e k 0 none (by omega)
    rw [Nat.zero_add] at hb
    exact hb
  · cases b
    · rw [c2_run_over_norec r m e hr]
      simp
    · rw [c2_run_over_rec r m e hr]
      simp
  · cases b
    · rw [c2_run_over_norec r m e hr]
      simp
    · rw [c2_run_over_rec r m e hr]
      simp
  · intro fc msg
    exact c2_tick_reset r b fc msg
  · intro env st st2 id evs h
    obtain ⟨s2, h1, h2, h3, -⟩ := restart_success_resets env st id st2 evs h
    exact ⟨s2, h1, h2, h3⟩

theorem claim_C2_witness :
    1 ≤ 1 ∧
    (run_ticks (List.replicate (1 + 0) (c2_env "boom"))
        (c2_state 1 true ServerStatus.running 0 none)).2.count
      (Event.unhealthy_transition "w") = 1 ∧
    (run_ticks (List.replicate (1 + 0) (c2_env "boom"))
        (c2_state 1 true ServerStatus.running 0 none)).2.count
      (Event.restart_attempt "w") = (if true then 1 else 0) :=
  ⟨by decide, (claim_C2 1 true "boom" 0 (by decide)).2.1,
   (claim_C2 1 true "boom" 0 (by decide)).2.2.1⟩
end TrainingLab
